import Mathlib

/-!
Verification of the NPHIES Mapper service (HL7 v2.5.1 and IHE ITI-41 ebXML codecs).

This file gives a shallow embedding, in Lean 4, of the core pure logic of
`mapper_service_final.py`:

* the field escaper `escape_hl7_field`,
* the identifier / timestamp normalizers (`normalize_dob`, `ts_to_hl7`),
* the HL7 segment encoder `json_to_hl7_full` (with `build_msh`, `build_pid`),
* the HL7 decoder `hl7_full_to_json`,
* the ITI-41 ebXML builder `build_iti41_ebxml` (as an XML element tree),
* `sha1_and_size` (with a full SHA-1 implementation),
* the base64 decode-or-raw-bytes fallback used on document payloads,
* the MTOM/XOP transport-selection logic of the `/convert/json-to-iti41`
  endpoint (threshold test and the `build_iti41_mtom_envelope` rewrite).

Python strings are modelled as `List Char`; Python byte strings as `List Nat`
(each entry below 256).  Sources of nondeterminism (the wall clock and
`uuid.uuid4()`) are passed in explicitly:  functions receive a `PyDateTime`
value standing for "now" and a supply `u : Nat -> Str` of freshly generated
UUID strings (one fixed index per generation site).  Fallible operations
return `Except` or `Option` values, mirroring the Python exception flow.
-/

namespace NPHIES

/-- Str is the model of a Python `str`: a list of unicode characters. -/
abbrev Str := List Char

/-- strL converts a Lean string literal to the `Str` model. -/
def strL (s : String) : Str := s.toList

deriving instance DecidableEq for Except

/-- splitOnChar models Python `s.split(sep)` for a one-character separator:
it never returns an empty list, and splitting the empty string yields
`[[]]`, exactly as `"".split(c) == ['']` in Python. -/
def splitOnChar (c : Char) : Str → List Str
  | [] => [[]]
  | x :: xs =>
    match splitOnChar c xs with
    | [] => [[]]
    | s :: rest => if x = c then [] :: s :: rest else (x :: s) :: rest

/-- joinSep models Python `sep.join(parts)` for a one-character separator. -/
def joinSep (c : Char) : List Str → Str
  | [] => []
  | [s] => s
  | s :: rest => s ++ c :: joinSep c rest

/-- pyReplaceChar models Python `s.replace(old, new)` when `old` is a single
character: every occurrence of that character is replaced by `new`. -/
def pyReplaceChar (old : Char) (new : Str) (s : Str) : Str :=
  s.flatMap (fun x => if x = old then new else [x])

/-- pyOr models the Python idiom `v or d` on an `Optional[str]` value:
`None` and the empty string are falsy and select the default. -/
def pyOr (v : Option Str) (d : Str) : Str :=
  match v with
  | none => d
  | some s => if s = [] then d else s

/-- pyTruthyB models Python truthiness of an `Optional[str]` value. -/
def pyTruthyB (v : Option Str) : Bool :=
  match v with
  | none => false
  | some s => decide (s ≠ [])

/-- pyStr models Python `f"{v}"` on an `Optional[str]` value: `None` renders
as the four characters `None`. -/
def pyStr (v : Option Str) : Str :=
  match v with
  | none => strL "None"
  | some s => s

/-- pyGet models Python `d.get(key, default)` on a dict modelled as an
association list in insertion order. -/
def pyGet (d : List (Str × Str)) (k : Str) (dflt : Str) : Str :=
  match d.find? (fun p => p.1 = k) with
  | some p => p.2
  | none => dflt

/-- startsW models Python `s.startswith(p)`. -/
def startsW (p s : Str) : Bool := p.isPrefixOf s

/-- isPyWsChar recognises the ASCII whitespace characters stripped by Python
`str.strip()` (the unicode whitespace range is not needed by the messages
this development manipulates). -/
def isPyWsChar (c : Char) : Bool :=
  c = ' ' || c = '\t' || c = '\n' || c = '\r' || c = '\x0b' || c = '\x0c'

/-- pyStripTruthy models the truthiness test `if s.strip()` used to filter
blank segments: it holds exactly when the string has a non-whitespace
character. -/
def pyStripTruthy (s : Str) : Bool := s.any (fun c => !isPyWsChar c)

/-- containsSub decides whether `pat` occurs as a contiguous substring. -/
def containsSub (pat : Str) : Str → Bool
  | [] => pat.isPrefixOf []
  | c :: rest => pat.isPrefixOf (c :: rest) || containsSub pat rest

/-- ASSIGNING_AUTHORITY_HEALTH_ID is the fixed national health-ID OID. -/
def ASSIGNING_AUTHORITY_HEALTH_ID : Str := strL "2.16.840.1.113883.3.3731.1.1.100.1"

/-- NATIONAL_ORG_ROOT is the fixed national organisation root OID. -/
def NATIONAL_ORG_ROOT : Str := strL "2.16.840.1.113883.3.3731"

/-- HL7_VERSION is the fixed HL7 version string. -/
def HL7_VERSION : Str := strL "2.5.1"

/-!  Identifier / timestamp normalizer.  -/

/-- subDobAux is the scanner realising `re.sub(r"[-:T].*", "", v)`: in
normal mode (flag `false`) a `-`, `:` or `T` starts a match whose greedy
`.*` consumes the rest of the line (a `.` in a Python regex does not match
a newline), modelled by the skipping mode (flag `true`); the newline
itself is not consumed by the match, so it is kept and scanning resumes. -/
def subDobAux : Bool → Str → Str
  | _, [] => []
  | false, c :: rest =>
    if c = '-' || c = ':' || c = 'T' then subDobAux true rest
    else c :: subDobAux false rest
  | true, c :: rest =>
    if c = '\n' then c :: subDobAux false rest
    else subDobAux true rest

/-- subDobRegex models `re.sub(r"[-:T].*", "", v)`. -/
def subDobRegex (s : Str) : Str := subDobAux false s

/-- normalize_dob models the `PatientModel.normalize_dob` validator:
falsy input (absent or empty) passes through, otherwise the result of
`re.sub(r"[-:T].*", "", v)` truncated to 8 characters is returned. -/
def normalize_dob : Option Str → Option Str
  | none => none
  | some v => if v = [] then some v else some ((subDobRegex v).take 8)

/-- PyDateTime models the fields of a Python `datetime` that
`strftime("%Y%m%d%H%M%S")` consumes.  The microsecond and timezone
attributes are irrelevant to that format string and are omitted. -/
structure PyDateTime where
  year : Nat
  month : Nat
  day : Nat
  hour : Nat
  minute : Nat
  second : Nat
deriving DecidableEq, Repr

/-- natDec renders a natural number in decimal, as Python `str` does. -/
def natDec (n : Nat) : Str := Nat.toDigits 10 n

/-- padZero left-pads a decimal rendering with zeros to the given width,
modelling the zero-padded `strftime` directives. -/
def padZero (w : Nat) (n : Nat) : Str :=
  let d := natDec n
  List.replicate (w - d.length) '0' ++ d

/-- formatTs models `dt.strftime("%Y%m%d%H%M%S")`. -/
def formatTs (d : PyDateTime) : Str :=
  padZero 4 d.year ++ padZero 2 d.month ++ padZero 2 d.day ++
    padZero 2 d.hour ++ padZero 2 d.minute ++ padZero 2 d.second

/-- parseDigits reads exactly `n` leading decimal digits. -/
def parseDigits (n : Nat) (s : Str) : Option (Nat × Str) :=
  let ds := s.take n
  if ds.length = n && ds.all Char.isDigit then
    some (ds.foldl (fun a c => a * 10 + (c.toNat - 48)) 0, s.drop n)
  else
    none

/-- expectChar consumes one expected leading character. -/
def expectChar (c : Char) (s : Str) : Option Str :=
  match s with
  | x :: rest => if x = c then some rest else none
  | [] => none

/-- isLeapYear is the Gregorian leap-year test used by `datetime`. -/
def isLeapYear (y : Nat) : Bool :=
  (y % 4 = 0 && y % 100 ≠ 0) || y % 400 = 0

/-- daysInMonth gives the number of days of a month, as `datetime` validates. -/
def daysInMonth (y m : Nat) : Nat :=
  if m = 2 then (if isLeapYear y then 29 else 28)
  else if m = 4 || m = 6 || m = 9 || m = 11 then 30
  else 31

/-- parseIsoDate reads the date portion accepted by
`datetime.fromisoformat` (Python 3.11): extended `YYYY-MM-DD` or basic
`YYYYMMDD`. -/
def parseIsoDate (s : Str) : Option (Nat × Nat × Nat × Str) := do
  let (y, s₁) ← parseDigits 4 s
  match expectChar '-' s₁ with
  | some s₂ => do
    let (m, s₃) ← parseDigits 2 s₂
    let s₄ ← expectChar '-' s₃
    let (d, s₅) ← parseDigits 2 s₄
    pure (y, m, d, s₅)
  | none => do
    let (m, s₃) ← parseDigits 2 s₁
    let (d, s₅) ← parseDigits 2 s₃
    pure (y, m, d, s₅)

/-- parseFrac reads a fractional-seconds part `.digits` or `,digits`. -/
def parseFrac (s : Str) : Option Str :=
  match s with
  | c :: rest =>
    if c = '.' || c = ',' then
      let ds := rest.takeWhile Char.isDigit
      if ds = [] then none else some (rest.drop ds.length)
    else some s
  | [] => some s

/-- parseIsoTime reads the time-of-day portion accepted by
`datetime.fromisoformat`: `HH`, `HH:MM`, `HH:MM:SS`, the basic forms
`HHMM`, `HHMMSS`, and an optional fractional part. -/
def parseIsoTime (s : Str) : Option (Nat × Nat × Nat × Str) := do
  let (h, s₁) ← parseDigits 2 s
  match expectChar ':' s₁ with
  | some s₂ => do
    let (m, s₃) ← parseDigits 2 s₂
    match expectChar ':' s₃ with
    | some s₄ => do
      let (sec, s₅) ← parseDigits 2 s₄
      let s₆ ← parseFrac s₅
      pure (h, m, sec, s₆)
    | none => pure (h, m, 0, s₃)
  | none =>
    match parseDigits 2 s₁ with
    | some (m, s₃) =>
      match parseDigits 2 s₃ with
      | some (sec, s₅) => do
        let s₆ ← parseFrac s₅
        pure (h, m, sec, s₆)
      | none => pure (h, m, 0, s₃)
    | none => pure (h, 0, 0, s₁)

/-- parseIsoOffset reads a trailing UTC-offset portion `±HH:MM[:SS[.f]]`,
`±HHMM` or `±HH`; the offset value itself is discarded because
`strftime` renders the wall-clock fields unchanged. -/
def parseIsoOffset (s : Str) : Option Str :=
  match s with
  | [] => some []
  | c :: rest =>
    if c = '+' || c = '-' then do
      let (oh, s₁) ← parseDigits 2 rest
      if oh ≥ 24 then none else
      match expectChar ':' s₁ with
      | some s₂ => do
        let (om, s₃) ← parseDigits 2 s₂
        if om ≥ 60 then none else
        match expectChar ':' s₃ with
        | some s₄ => do
          let (os, s₅) ← parseDigits 2 s₄
          if os ≥ 60 then none else parseFrac s₅
        | none => some s₃
      | none =>
        match parseDigits 2 s₁ with
        | some (om, s₃) => if om ≥ 60 then none else some s₃
        | none => some s₁
    else none

/-- fromisoformat models `datetime.datetime.fromisoformat` (Python 3.11
grammar restricted to calendar dates; ISO week dates are not used by this
service).  The date part may be followed by a time part introduced by any
single separator character, and by a UTC offset. -/
def fromisoformat (s : Str) : Option PyDateTime := do
  let (y, m, d, rest) ← parseIsoDate s
  if y = 0 || m = 0 || m > 12 || d = 0 || d > daysInMonth y m then none else
  match rest with
  | [] => pure ⟨y, m, d, 0, 0, 0⟩
  | _ :: timePart => do
    let (h, mi, sec, rest₂) ← parseIsoTime timePart
    if h ≥ 24 || mi ≥ 60 || sec ≥ 60 then none else
    let rest₃ ← parseIsoOffset rest₂
    if rest₃ = [] then pure ⟨y, m, d, h, mi, sec⟩ else none

/-- ts_to_hl7 models the `ts_to_hl7` utility.  The first argument is the
current UTC time (the value `datetime.utcnow()` would return).  A falsy
timestamp yields the formatted current time; otherwise the code tries
`datetime.fromisoformat(ts.replace("Z", "+00:00"))` and formats the result,
and on a parse failure it falls back to `re.sub(r"\D", "", ts)[:14]`,
keeping only the digits and truncating to 14 characters. -/
def ts_to_hl7 (now : PyDateTime) (ts : Option Str) : Str :=
  match ts with
  | none => formatTs now
  | some t =>
    if t = [] then formatTs now
    else
      match fromisoformat (pyReplaceChar 'Z' (strL "+00:00") t) with
      | some dt => formatTs dt
      | none => (t.filter Char.isDigit).take 14

/-!  Field escaper.  -/

/-- escape_hl7_field models the `escape_hl7_field` utility: `None` becomes
the empty string, and otherwise the four chained `str.replace` calls of the
source are applied in order. -/
def escape_hl7_field (s : Option Str) : Str :=
  match s with
  | none => []
  | some v =>
    pyReplaceChar '~' (strL "\\R\\")
      (pyReplaceChar '&' (strL "\\T\\")
        (pyReplaceChar '^' (strL "\\S\\")
          (pyReplaceChar '|' (strL "\\F\\") v)))

/-- escMapChar is the per-character mapping that the specification describes
for the escaper: each of the four HL7 delimiters goes to its escape
sequence and every other character is kept. -/
def escMapChar (c : Char) : Str :=
  if c = '|' then strL "\\F\\"
  else if c = '^' then strL "\\S\\"
  else if c = '&' then strL "\\T\\"
  else if c = '~' then strL "\\R\\"
  else [c]

/-!  Bytes, UTF-8, base64 and SHA-1.  -/

/-- utf8Char encodes one unicode scalar value to UTF-8 bytes. -/
def utf8Char (c : Char) : List Nat :=
  let v := c.toNat
  if v < 128 then [v]
  else if v < 2048 then [192 + v / 64, 128 + v % 64]
  else if v < 65536 then [224 + v / 4096, 128 + v / 64 % 64, 128 + v % 64]
  else [240 + v / 262144, 128 + v / 4096 % 64, 128 + v / 64 % 64, 128 + v % 64]

/-- utf8Encode models Python `s.encode("utf-8")`. -/
def utf8Encode (s : Str) : List Nat := s.flatMap utf8Char

/-- b64Val gives the 6-bit value of a standard base64 alphabet character. -/
def b64Val (c : Char) : Option Nat :=
  if 'A' ≤ c && c ≤ 'Z' then some (c.toNat - 65)
  else if 'a' ≤ c && c ≤ 'z' then some (c.toNat - 71)
  else if '0' ≤ c && c ≤ '9' then some (c.toNat + 4)
  else if c = '+' then some 62
  else if c = '/' then some 63
  else none

/-- b64Chr is the standard base64 alphabet indexing. -/
def b64Chr (n : Nat) : Char :=
  (strL "ABCDEFGHIJKLMNOPQRSTUVWXYZabcdefghijklmnopqrstuvwxyz0123456789+/").getD n 'A'

/-- b64encode models Python `base64.b64encode` (restricted to the byte
values the service produces), with standard `=` padding. -/
def b64encode : List Nat → Str
  | [] => []
  | [a] => [b64Chr (a / 4), b64Chr (a % 4 * 16), '=', '=']
  | [a, b] => [b64Chr (a / 4), b64Chr (a % 4 * 16 + b / 16), b64Chr (b % 16 * 4), '=']
  | a :: b :: c :: rest =>
    b64Chr (a / 4) :: b64Chr (a % 4 * 16 + b / 16) ::
      b64Chr (b % 16 * 4 + c / 64) :: b64Chr (c % 64) :: b64encode rest

/-- b64Body decodes a base64 character stream already filtered to alphabet
and padding characters, carrying the pending (at most three) 6-bit values
of the current quad.  It mirrors CPython `binascii.a2b_base64` in
non-strict mode: a `=` with fewer than two pending values is discarded, a
`=` closing a quad of two must be followed by a second `=`, everything
after a closing padding is discarded, and a dangling quad at end of input
is an error (`Incorrect padding`). -/
def b64Body : Str → List Nat → Option (List Nat)
  | [], pend => if pend = [] then some [] else none
  | '=' :: rest, pend =>
    match pend with
    | [a, b] =>
      (match rest with
       | '=' :: _ => some [a * 4 + b / 16]
       | _ => none)
    | [a, b, c] => some [a * 4 + b / 16, b % 16 * 16 + c / 4]
    | _ => b64Body rest pend
  | ch :: rest, pend =>
    match b64Val ch with
    | none => b64Body rest pend
    | some v =>
      match pend with
      | [a, b, c] =>
        (b64Body rest []).map
          (fun tl => (a * 4 + b / 16) :: (b % 16 * 16 + c / 4) :: (c % 4 * 64 + v) :: tl)
      | _ => b64Body rest (pend ++ [v])

/-- b64decode models Python `base64.b64decode` applied to a `str`: the
string must be pure ASCII (else `ValueError`), characters outside the
alphabet are discarded, and the remaining stream is decoded by
`b64Body`; `none` models the raised exception. -/
def b64decode (s : Str) : Option (List Nat) :=
  if s.any (fun c => 128 ≤ c.toNat) then none
  else b64Body (s.filter (fun c => (b64Val c).isSome || c = '=')) []

/-- decodeOrRaw models the document-byte fallback idiom of the service:
`base64.b64decode(s)` and, when that raises, `s.encode("utf-8")`. -/
def decodeOrRaw (s : Str) : List Nat :=
  match b64decode s with
  | some b => b
  | none => utf8Encode s

/-- M32 is 2 to the 32nd power, the modulus of SHA-1 word arithmetic. -/
def M32 : Nat := 4294967296

/-- rotl is 32-bit left rotation. -/
def rotl (n x : Nat) : Nat := ((x <<< n) ||| (x >>> (32 - n))) % M32

/-- be8 renders a natural number as 8 big-endian bytes. -/
def be8 (n : Nat) : List Nat :=
  [n / 2 ^ 56 % 256, n / 2 ^ 48 % 256, n / 2 ^ 40 % 256, n / 2 ^ 32 % 256,
   n / 2 ^ 24 % 256, n / 2 ^ 16 % 256, n / 2 ^ 8 % 256, n % 256]

/-- be4 renders a 32-bit word as 4 big-endian bytes. -/
def be4 (n : Nat) : List Nat :=
  [n / 2 ^ 24 % 256, n / 2 ^ 16 % 256, n / 2 ^ 8 % 256, n % 256]

/-- sha1Pad appends the SHA-1 message padding: a `0x80` byte, zero bytes up
to 56 modulo 64, and the bit length as 8 big-endian bytes. -/
def sha1Pad (msg : List Nat) : List Nat :=
  msg ++ 128 :: List.replicate ((119 - msg.length % 64) % 64) 0 ++ be8 (8 * msg.length)

/-- toWords packs bytes into 32-bit big-endian words. -/
def toWords : List Nat → List Nat
  | a :: b :: c :: d :: rest => (((a * 256 + b) * 256 + c) * 256 + d) :: toWords rest
  | _ => []

/-- scheduleAux extends the 16-word chunk to the 80-word SHA-1 message
schedule; the accumulator holds the words most recent first. -/
def scheduleAux : Nat → List Nat → List Nat
  | 0, acc => acc.reverse
  | k + 1, acc =>
    scheduleAux k
      (rotl 1 ((acc.getD 2 0) ^^^ (acc.getD 7 0) ^^^ (acc.getD 13 0) ^^^ (acc.getD 15 0)) :: acc)

/-- sha1F is the SHA-1 round function. -/
def sha1F (i b c d : Nat) : Nat :=
  if i < 20 then (b &&& c) ||| ((b ^^^ 4294967295) &&& d)
  else if i < 40 then b ^^^ c ^^^ d
  else if i < 60 then (b &&& c) ||| (b &&& d) ||| (c &&& d)
  else b ^^^ c ^^^ d

/-- sha1K is the SHA-1 round constant. -/
def sha1K (i : Nat) : Nat :=
  if i < 20 then 1518500249
  else if i < 40 then 1859775393
  else if i < 60 then 2400959708
  else 3395469782

/-- Hash5 is the SHA-1 internal state. -/
structure Hash5 where
  a : Nat
  b : Nat
  c : Nat
  d : Nat
  e : Nat
deriving DecidableEq, Repr

/-- sha1Round performs one of the 80 SHA-1 rounds. -/
def sha1Round (st : Hash5) (iw : Nat × Nat) : Hash5 :=
  let t := (rotl 5 st.a + sha1F iw.1 st.b st.c st.d + st.e + sha1K iw.1 + iw.2) % M32
  ⟨t, st.a, rotl 30 st.b, st.c, st.d⟩

/-- sha1Chunk folds one 16-word chunk into the running hash state. -/
def sha1Chunk (h : Hash5) (ws : List Nat) : Hash5 :=
  let f := (scheduleAux 64 ws.reverse).enum.foldl sha1Round h
  ⟨(h.a + f.a) % M32, (h.b + f.b) % M32, (h.c + f.c) % M32, (h.d + f.d) % M32,
   (h.e + f.e) % M32⟩

theorem drop_15_len_lt (x : Nat) (rest : List Nat) :
    (rest.drop 15).length < (x :: rest).length := by
  simp only [List.length_drop, List.length_cons]
  omega

/-- chunksOf16 splits a word list into chunks of 16 words. -/
def chunksOf16 : List Nat → List (List Nat)
  | [] => []
  | x :: rest => (x :: rest.take 15) :: chunksOf16 (rest.drop 15)
  termination_by l => l.length
  decreasing_by exact drop_15_len_lt x rest

/-- sha1Init is the SHA-1 initialisation vector. -/
def sha1Init : Hash5 := ⟨1732584193, 4023233417, 2562383102, 271733878, 3285377520⟩

/-- sha1Bytes computes the 20-byte SHA-1 digest of a byte string. -/
def sha1Bytes (msg : List Nat) : List Nat :=
  let h := (chunksOf16 (toWords (sha1Pad msg))).foldl sha1Chunk sha1Init
  be4 h.a ++ be4 h.b ++ be4 h.c ++ be4 h.d ++ be4 h.e

/-- hexDig is a lowercase hexadecimal digit. -/
def hexDig (n : Nat) : Char :=
  (strL "0123456789abcdef").getD n '0'

/-- sha1Hex is the lowercase hex digest, as `hashlib.sha1(b).hexdigest()`. -/
def sha1Hex (msg : List Nat) : Str :=
  (sha1Bytes msg).flatMap (fun b => [hexDig (b / 16), hexDig (b % 16)])

/-- sha1_and_size models the `sha1_and_size` utility: the hex digest and the
decimal byte count of a byte string. -/
def sha1_and_size (b : List Nat) : Str × Str :=
  (sha1Hex b, natDec b.length)

/-!  HL7 input models (mirroring the pydantic models; validation such as
`normalize_dob` runs at construction, so these hold post-validation data).
Python `Dict[str, Any]` payloads (`mrg`, `al1`, `dg1`, `pr1` entries) are
modelled as association lists of string keys and values. -/

structure Identifier where
  id : Str
  assigning_authority : Option Str
  type : Option Str
deriving DecidableEq, Repr

structure PatientModel where
  identifiers : List Identifier
  name_family : Option Str
  name_given : Option Str
  middle_name : Option Str
  dob : Option Str
  sex : Option Str
deriving DecidableEq, Repr

structure PD1Model where
  vip_indicator : Option Str
  prior_patient_ids : Option (List Identifier)
deriving DecidableEq, Repr

structure VisitModel where
  patient_class : Option Str
  location : Option Str
  admitting_doctor_id : Option Str
  admitting_doctor_family : Option Str
  admitting_doctor_given : Option Str
  attending_doctor_id : Option Str
  attending_doctor_family : Option Str
  attending_doctor_given : Option Str
  visit_number : Option Str
  admit_datetime : Option Str
  discharge_datetime : Option Str
deriving DecidableEq, Repr

structure MessageModel where
  event : Str
  sending_app_oid : Option Str
  sending_facility : Option Str
  receiving_app : Option Str
  receiving_facility : Option Str
  message_datetime : Option Str
  message_control_id : Option Str
  version : Option Str
deriving DecidableEq, Repr

structure NK1Model where
  name : Option Str
  relationship : Option Str
  phone_number : Option Str
deriving DecidableEq, Repr

structure GT1Model where
  guarantor_number : Option Str
  guarantor_name : Option Str
  guarantor_address : Option Str
  guarantor_phone : Option Str
deriving DecidableEq, Repr

structure IN1Model where
  insurance_plan_id : Option Str
  insurance_company_id : Option Str
  insurance_company_name : Option Str
  insured_id : Option Str
  insured_name : Option Str
deriving DecidableEq, Repr

structure HL7FullInput where
  header : MessageModel
  patient : PatientModel
  pd1 : Option PD1Model
  visit : Option VisitModel
  mrg : Option (List (Str × Str))
  al1 : Option (List (List (Str × Str)))
  dg1 : Option (List (List (Str × Str)))
  pr1 : Option (List (List (Str × Str)))
  nk1 : Option (List NK1Model)
  gt1 : Option (List GT1Model)
  in1 : Option (List IN1Model)
deriving DecidableEq, Repr

/-!  HL7 encoder.  Exceptions raised during encoding (the `HTTPException` of
`build_pid`) are modelled by `Except Str`.  The `uuid.uuid4()` fallback for
the message control id is supplied as the explicit argument `ctrlFresh`,
and the wall clock as `now`. -/

/-- build_msh models `build_msh`. -/
def build_msh (now : PyDateTime) (ctrlFresh : Str) (hdr : MessageModel) : Str :=
  strL "MSH|^~\\&|" ++ pyOr hdr.sending_app_oid [] ++ strL "|" ++
    pyOr hdr.sending_facility [] ++ strL "|" ++ pyOr hdr.receiving_app [] ++ strL "|" ++
    pyOr hdr.receiving_facility [] ++ strL "|" ++ ts_to_hl7 now hdr.message_datetime ++
    strL "||" ++ hdr.event ++ strL "|" ++ pyOr hdr.message_control_id ctrlFresh ++
    strL "|P|" ++ pyOr hdr.version HL7_VERSION

/-- pidName models the PID-5 name component of `build_pid`: the composite
`family^given^middle` is produced only when at least one part is truthy. -/
def pidName (patient : PatientModel) : Str :=
  if pyTruthyB patient.name_family || pyTruthyB patient.name_given ||
      pyTruthyB patient.middle_name then
    escape_hl7_field (some (pyOr patient.name_family [])) ++ strL "^" ++
      escape_hl7_field (some (pyOr patient.name_given [])) ++ strL "^" ++
      escape_hl7_field (some (pyOr patient.middle_name []))
  else []

/-- pid3Of is the PID-3 composite `id^^^authority^ISO` built from the first
identifier (the authority renders through the f-string, hence `pyStr`). -/
def pid3Of (first : Identifier) : Str :=
  first.id ++ strL "^^^" ++ pyStr first.assigning_authority ++ strL "^ISO"

/-- build_pid models `build_pid`: with a non-empty identifier list whose
first entry has an assigning authority differing from the fixed health-ID
OID it raises (an `Except.error`); otherwise it renders the PID segment
from the first identifier, the name composite, dob and sex. -/
def build_pid (patient : PatientModel) : Except Str Str :=
  match patient.identifiers with
  | [] =>
    .ok (strL "PID|1||||" ++ pidName patient ++ strL "||" ++
      pyOr patient.dob [] ++ strL "|" ++ pyOr patient.sex [])
  | first :: _ =>
    if first.assigning_authority ≠ some ASSIGNING_AUTHORITY_HEALTH_ID then
      .error (strL "Patient first identifier assigning_authority must be " ++
        ASSIGNING_AUTHORITY_HEALTH_ID)
    else
      .ok (strL "PID|1||" ++ pid3Of first ++ strL "||" ++ pidName patient ++ strL "||" ++
        pyOr patient.dob [] ++ strL "|" ++ pyOr patient.sex [])

/-- evnSeg models the EVN segment construction of `json_to_hl7_full`. -/
def evnSeg (now : PyDateTime) (hdr : MessageModel) : Str :=
  let code := if '^' ∈ hdr.event then (splitOnChar '^' hdr.event).getLastD [] else hdr.event
  strL "EVN|" ++ code ++ strL "|" ++ ts_to_hl7 now hdr.message_datetime

/-- priorIdOf renders one prior patient identifier for PD1-2. -/
def priorIdOf (p : Identifier) : Str :=
  p.id ++ strL "^^^" ++ pyStr p.assigning_authority ++ strL "^ISO"

/-- pd1Chunk models the optional PD1 segment. -/
def pd1Chunk : Option PD1Model → List Str
  | none => []
  | some m =>
    let prior :=
      match m.prior_patient_ids with
      | some (p :: ps) => joinSep '~' ((p :: ps).map priorIdOf)
      | _ => []
    [strL "PD1|" ++ pyOr m.vip_indicator [] ++ strL "|" ++ prior]

/-- visitChunk models the optional PV1/PV2 segment pair. -/
def visitChunk (now : PyDateTime) : Option VisitModel → List Str
  | none => []
  | some v =>
    let attend := pyOr v.attending_doctor_id [] ++ strL "^" ++
      pyOr v.attending_doctor_family [] ++ strL "^" ++ pyOr v.attending_doctor_given []
    let admitT := if pyTruthyB v.admit_datetime then ts_to_hl7 now v.admit_datetime else []
    let dischT :=
      if pyTruthyB v.discharge_datetime then ts_to_hl7 now v.discharge_datetime else []
    [strL "PV1|1|" ++ pyOr v.patient_class [] ++ strL "|" ++ pyOr v.location [] ++
       strL "||||" ++ attend ++ strL "|||||||||||||||" ++ pyOr v.visit_number [] ++
       strL "|" ++ admitT ++ strL "|" ++ dischT,
     strL "PV2|||" ++ admitT ++ strL "|" ++ dischT]

/-- mrgChunk models the optional MRG segment (an empty dict is falsy). -/
def mrgChunk : Option (List (Str × Str)) → List Str
  | some (p :: ps) =>
    [strL "MRG|" ++ pyGet (p :: ps) (strL "prior_patient_id") [] ++ strL "|||" ++
      pyGet (p :: ps) (strL "prior_visit_number") []]
  | _ => []

/-- al1Seg models one AL1 segment. -/
def al1Seg (a : List (Str × Str)) : Str :=
  strL "AL1|||" ++ escape_hl7_field (some (pyGet a (strL "allergen") [])) ++ strL "|" ++
    escape_hl7_field (some (pyGet a (strL "reaction") [])) ++ strL "|" ++
    escape_hl7_field (some (pyGet a (strL "severity") []))

/-- dg1Seg models one DG1 segment. -/
def dg1Seg (d : List (Str × Str)) : Str :=
  strL "DG1|" ++ pyGet d (strL "set_id") (strL "1") ++ strL "|" ++
    pyGet d (strL "diagnosis_type") [] ++ strL "|" ++
    pyGet d (strL "diagnosis_code") [] ++ strL "|" ++
    escape_hl7_field (some (pyGet d (strL "diagnosis_desc") []))

/-- pr1Seg models one PR1 segment. -/
def pr1Seg (p : List (Str × Str)) : Str :=
  strL "PR1|" ++ pyGet p (strL "set_id") (strL "1") ++ strL "|" ++
    pyGet p (strL "procedure_code") [] ++ strL "|" ++
    escape_hl7_field (some (pyGet p (strL "procedure_desc") []))

/-- nk1Seg models one NK1 segment. -/
def nk1Seg (nk : NK1Model) : Str :=
  strL "NK1||" ++ escape_hl7_field (some (pyOr nk.name [])) ++ strL "|" ++
    escape_hl7_field (some (pyOr nk.relationship [])) ++ strL "|" ++
    escape_hl7_field (some (pyOr nk.phone_number []))

/-- gt1Seg models one GT1 segment. -/
def gt1Seg (gt : GT1Model) : Str :=
  strL "GT1|" ++ escape_hl7_field (some (pyOr gt.guarantor_number [])) ++ strL "|" ++
    escape_hl7_field (some (pyOr gt.guarantor_name [])) ++ strL "|" ++
    escape_hl7_field (some (pyOr gt.guarantor_address [])) ++ strL "|" ++
    escape_hl7_field (some (pyOr gt.guarantor_phone []))

/-- in1Seg models one IN1 segment. -/
def in1Seg (ins : IN1Model) : Str :=
  strL "IN1|" ++ escape_hl7_field (some (pyOr ins.insurance_plan_id [])) ++ strL "|" ++
    escape_hl7_field (some (pyOr ins.insurance_company_id [])) ++ strL "|" ++
    escape_hl7_field (some (pyOr ins.insurance_company_name [])) ++ strL "|" ++
    escape_hl7_field (some (pyOr ins.insured_id [])) ++ strL "|" ++
    escape_hl7_field (some (pyOr ins.insured_name []))

/-- listChunk maps a segment renderer over an optional list payload (a
missing or empty list contributes no segments). -/
def listChunk (f : α → Str) : Option (List α) → List Str
  | none => []
  | some l => l.map f

/-- hl7Segments is the ordered segment list that `json_to_hl7_full`
assembles; the only possible failure is the one raised by `build_pid`. -/
def hl7Segments (now : PyDateTime) (ctrlFresh : Str) (payload : HL7FullInput) :
    Except Str (List Str) :=
  match build_pid payload.patient with
  | .error e => .error e
  | .ok pidSeg =>
    .ok ([build_msh now ctrlFresh payload.header, evnSeg now payload.header, pidSeg] ++
      pd1Chunk payload.pd1 ++ visitChunk now payload.visit ++ mrgChunk payload.mrg ++
      listChunk al1Seg payload.al1 ++ listChunk dg1Seg payload.dg1 ++
      listChunk pr1Seg payload.pr1 ++ listChunk nk1Seg payload.nk1 ++
      listChunk gt1Seg payload.gt1 ++ listChunk in1Seg payload.in1)

/-- json_to_hl7_full models `json_to_hl7_full`: the segments joined by
carriage returns.  The optional hl7apy conformance check of the source
only logs warnings and never alters or blocks the output, so it has no
observable effect to model. -/
def json_to_hl7_full (now : PyDateTime) (ctrlFresh : Str) (payload : HL7FullInput) :
    Except Str Str :=
  match hl7Segments now ctrlFresh payload with
  | .error e => .error e
  | .ok segs => .ok (joinSep '\r' segs)

/-!  HL7 decoder.  The Python result dict is modelled by `DecodeResult`;
dict keys that may be absent are `Option` fields.  The decoder can raise:
a PV2 segment processed while `result["visit"]` is still `None` makes
`result.setdefault("visit", {})` return `None`, and the subsequent item
assignment raises `TypeError`; this is modelled by `Except Unit`. -/

structure HdrD where
  sending_app_oid : Option Str
  sending_facility : Option Str
  receiving_app : Option Str
  receiving_facility : Option Str
  message_datetime : Option Str
  event : Option Str
  message_control_id : Option Str
  version : Option Str
  evn : Option Str
  evn_datetime : Option Str
deriving DecidableEq, Repr

structure PidD where
  identifiers : List Str
  name : Str
  dob : Str
  sex : Str
deriving DecidableEq, Repr

structure Pd1D where
  vip : Str
  prior_ids : Str
deriving DecidableEq, Repr

structure VisitD where
  patient_class : Str
  location : Str
  attending_doctor : Str
  visit_number : Str
  admit_time : Option Str
  discharge : Option Str
deriving DecidableEq, Repr

structure MrgD where
  prior_patient_id : Str
  prior_visit : Str
deriving DecidableEq, Repr

structure Al1D where
  allergen : Str
  reaction : Str
deriving DecidableEq, Repr

structure Dg1D where
  code : Str
  desc : Str
deriving DecidableEq, Repr

structure Pr1D where
  code : Str
  desc : Str
deriving DecidableEq, Repr

structure Nk1D where
  name : Str
  relationship : Str
  phone_number : Str
deriving DecidableEq, Repr

structure Gt1D where
  guarantor_number : Str
  guarantor_name : Str
  guarantor_address : Str
  guarantor_phone : Str
deriving DecidableEq, Repr

structure In1D where
  insurance_plan_id : Str
  insurance_company_id : Str
  insurance_company_name : Str
  insured_id : Str
  insured_name : Str
deriving DecidableEq, Repr

structure DecodeResult where
  header : HdrD
  patient : Option PidD
  pd1 : Option Pd1D
  visit : Option VisitD
  mrg : Option MrgD
  al1 : List Al1D
  dg1 : List Dg1D
  pr1 : List Pr1D
  nk1 : List Nk1D
  gt1 : List Gt1D
  in1 : List In1D
deriving DecidableEq, Repr

/-- initResult is the freshly initialised decode result dict (the
`"patient": {}` empty dict and the absent `nk1`/`gt1`/`in1` keys are
modelled as `none` and `[]`; the decoder only ever replaces or appends). -/
def initResult : DecodeResult :=
  ⟨⟨none, none, none, none, none, none, none, none, none, none⟩,
   none, none, none, none, [], [], [], [], [], []⟩

/-- hl7Step processes one segment of `hl7_full_to_json`: the segment is
split on `|`, dispatch happens on the first field, and every field access
`fields[i] if len(fields) > i else ""` is modelled by `List.getD i []`. -/
def hl7Step (r : DecodeResult) (seg : Str) : Except Unit DecodeResult :=
  let fields := splitOnChar '|' seg
  let fd := fun i => fields.getD i []
  let nm := fields.headD []
  if nm = strL "MSH" then
    .ok { r with header := { r.header with
      sending_app_oid := some (fd 2), sending_facility := some (fd 3),
      receiving_app := some (fd 4), receiving_facility := some (fd 5),
      message_datetime := some (fd 6), event := some (fd 8),
      message_control_id := some (fd 9), version := some (fd 11) } }
  else if nm = strL "EVN" then
    .ok { r with header := { r.header with
      evn := some (fd 1), evn_datetime := some (fd 2) } }
  else if nm = strL "PID" then
    .ok { r with patient := some ⟨[fd 3], fd 5, fd 7, fd 8⟩ }
  else if nm = strL "PD1" then
    .ok { r with pd1 := some ⟨fd 1, fd 2⟩ }
  else if nm = strL "PV1" then
    .ok { r with visit := some ⟨fd 2, fd 3, fd 8, fd 19, none, none⟩ }
  else if nm = strL "PV2" then
    match r.visit with
    | none => .error ()
    | some v => .ok { r with visit := some { v with admit_time := some (fd 3), discharge := some (fd 4) } }
  else if nm = strL "MRG" then
    .ok { r with mrg := some ⟨fd 1, fd 4⟩ }
  else if nm = strL "AL1" then
    .ok { r with al1 := r.al1 ++ [⟨fd 3, fd 4⟩] }
  else if nm = strL "DG1" then
    .ok { r with dg1 := r.dg1 ++ [⟨fd 3, fd 4⟩] }
  else if nm = strL "PR1" then
    .ok { r with pr1 := r.pr1 ++ [⟨fd 2, fd 3⟩] }
  else if nm = strL "NK1" then
    .ok { r with nk1 := r.nk1 ++ [⟨fd 2, fd 3, fd 4⟩] }
  else if nm = strL "GT1" then
    .ok { r with gt1 := r.gt1 ++ [⟨fd 1, fd 2, fd 3, fd 4⟩] }
  else if nm = strL "IN1" then
    .ok { r with in1 := r.in1 ++ [⟨fd 1, fd 2, fd 3, fd 4, fd 5⟩] }
  else
    .ok r

/-- hl7_full_to_json models `hl7_full_to_json`: split the message on
carriage returns, keep the segments with a non-whitespace character, and
fold `hl7Step` over them (an exception aborts the whole decode). -/
def hl7_full_to_json (msg : Str) : Except Unit DecodeResult :=
  ((splitOnChar '\r' msg).filter pyStripTruthy).foldlM hl7Step initResult

/-!  ebXML document builder.  `xml.etree.ElementTree` elements are modelled
by the `Xml` tree below: a namespace-qualified tag (the same
`{namespace-uri}LocalName` convention ElementTree uses), the attributes in
insertion order, the child elements in insertion order, and the text
content.  Fresh `uuid.uuid4()` values are supplied by `u : Nat -> Str`,
one fixed index per generation site, and `nowTs` stands for
`datetime.utcnow().strftime("%Y%m%d%H%M%S")`. -/

inductive Xml where
  | elem (tag : Str) (attrs : List (Str × Str)) (children : List Xml) (text : Str)
deriving Repr

/-- xmlTag projects the tag of an element. -/
def xmlTag : Xml → Str
  | .elem t _ _ _ => t

/-- xmlAttrs projects the attribute list of an element. -/
def xmlAttrs : Xml → List (Str × Str)
  | .elem _ a _ _ => a

/-- xmlChildren projects the child list of an element. -/
def xmlChildren : Xml → List Xml
  | .elem _ _ c _ => c

/-- xmlText projects the text content of an element. -/
def xmlText : Xml → Str
  | .elem _ _ _ tx => tx

/-- NS_S is the SOAP envelope namespace. -/
def NS_S : Str := strL "http://www.w3.org/2003/05/soap-envelope"

/-- NS_A is the WS-Addressing namespace. -/
def NS_A : Str := strL "http://www.w3.org/2005/08/addressing"

/-- NS_XDS is the XDS-b namespace. -/
def NS_XDS : Str := strL "urn:ihe:iti:xds-b:2007"

/-- NS_RIM is the ebRIM namespace. -/
def NS_RIM : Str := strL "urn:oasis:names:tc:ebxml-regrep:xsd:rim:3.0"

/-- NS_LCM is the ebLCM namespace. -/
def NS_LCM : Str := strL "urn:oasis:names:tc:ebxml-regrep:xsd:lcm:3.0"

/-- qtag builds an ElementTree qualified tag `{uri}Local`. -/
def qtag (uri : Str) (nm : String) : Str := '\x7b' :: (uri ++ '\x7d' :: strL nm)

/-- localName strips the `{namespace-uri}` decoration from a tag, as the
namespace-agnostic decoder of the service does. -/
def localName (tag : Str) : Str :=
  if '\x7d' ∈ tag then (tag.dropWhile (fun c => c ≠ '\x7d')).drop 1 else tag

/-- SUBMISSIONSET_UNIQUEID_SCHEME is the fixed SubmissionSet unique-id
identification scheme URN. -/
def SUBMISSIONSET_UNIQUEID_SCHEME : Str := strL "urn:uuid:96fdda7c-d067-4183-912e-bf5ee74998a8"

/-- UNIQUEID_SCHEME is the fixed document unique-id identification scheme URN. -/
def UNIQUEID_SCHEME : Str := strL "urn:uuid:58a6f841-87b3-4a3e-92fd-a8ffeff98427"

/-- OBJECTTYPE_ONDEMAND is the on-demand DocumentEntry objectType URN. -/
def OBJECTTYPE_ONDEMAND : Str := strL "urn:uuid:34268e47-fdf5-41a6-ba33-82133c465248"

/-- OBJECTTYPE_STABLE is the stable DocumentEntry objectType URN. -/
def OBJECTTYPE_STABLE : Str := strL "urn:uuid:7edca82f-054d-47f2-a032-9b2a5b5186c1"

/-- SOAPInput mirrors the pydantic `SOAPInput` model (the `soap` dict is an
association list; its values are the strings the builder reads). -/
structure SOAPInput where
  soap : List (Str × Str)
  repository_address : Option Str
  patient_id : Str
  class_code : Option Str
  type_code : Option Str
  practice_setting_code : Option Str
  unique_id : Option Str
  object_type : Option Str
  document_base64 : Option Str
  mime_type : Option Str
  creation_time : Option Str
  source_id : Option Str
  repository_unique_id : Option Str
deriving DecidableEq, Repr

/-- slotXml models `add_slot`: a rim Slot with a name attribute holding a
ValueList of rim Value elements. -/
def slotXml (nm : Str) (values : List Str) : Xml :=
  .elem (qtag NS_RIM "Slot") [(strL "name", nm)]
    [.elem (qtag NS_RIM "ValueList") []
      (values.map (fun v => .elem (qtag NS_RIM "Value") [] [] v)) []] []

/-- locStr builds a rim element holding one LocalizedString value. -/
def locStr (outer : String) (v : String) : Xml :=
  .elem (qtag NS_RIM outer) []
    [.elem (qtag NS_RIM "LocalizedString") [(strL "value", strL v)] [] []] []

/-- extIdXml builds a rim ExternalIdentifier element. -/
def extIdXml (eid regObj scheme value : Str) : Xml :=
  .elem (qtag NS_RIM "ExternalIdentifier")
    [(strL "id", eid), (strL "registryObject", regObj), (strL "identificationScheme", scheme)]
    [.elem (qtag NS_RIM "Value") [] [] value] []

/-- urnUuid prepends the `urn:uuid:` prefix to a generated token. -/
def urnUuid (s : Str) : Str := strL "urn:uuid:" ++ s

/-- submissionIdOf is `obj.unique_id or f"urn:uuid:{uuid.uuid4()}"` at the
SubmissionSet site. -/
def submissionIdOf (u : Nat → Str) (obj : SOAPInput) : Str :=
  pyOr obj.unique_id (urnUuid (u 1))

/-- docIdOf is `obj.unique_id or f"urn:uuid:{uuid.uuid4()}"` at the
DocumentEntry site (a distinct `uuid4()` call from the SubmissionSet one). -/
def docIdOf (u : Nat → Str) (obj : SOAPInput) : Str :=
  pyOr obj.unique_id (urnUuid (u 3))

/-- regpkgXml builds the RegistryPackage (SubmissionSet) element. -/
def regpkgXml (u : Nat → Str) (nowTs : Str) (obj : SOAPInput) : Xml :=
  let submissionId := submissionIdOf u obj
  let rid := strL "rs." ++ submissionId
  .elem (qtag NS_RIM "RegistryPackage") [(strL "id", rid)]
    ([locStr "Name" "SubmissionSet",
      extIdXml (urnUuid (u 2)) rid SUBMISSIONSET_UNIQUEID_SCHEME submissionId,
      slotXml (strL "submissionTime") [pyOr obj.creation_time nowTs]] ++
     (if pyTruthyB obj.source_id then [slotXml (strL "sourceId") [pyOr obj.source_id []]] else []) ++
     (if pyTruthyB obj.repository_unique_id then
        [slotXml (strL "repositoryUniqueID") [pyOr obj.repository_unique_id []]] else [])) []

/-- classificationXml builds a rim Classification element. -/
def classificationXml (scheme node cid : Str) : Xml :=
  .elem (qtag NS_RIM "Classification")
    [(strL "classificationScheme", scheme), (strL "classificationNode", node), (strL "id", cid)] [] []

/-- docFormatCode is the formatCode slot value: the PDF format URN when the
mime type contains `pdf` (case-insensitively), else the unknown-format URN. -/
def docFormatCode (obj : SOAPInput) : Str :=
  if containsSub (strL "pdf") ((pyOr obj.mime_type []).map Char.toLower) then
    strL "urn:ihe:iti:xds-sd:pdf:2008"
  else strL "urn:ksa-ehealth:format:unknown"

/-- docBytesOf is the decoded document payload when one is supplied (an
untruthy `document_base64` yields none, mirroring `if obj.document_base64:`). -/
def docBytesOf (obj : SOAPInput) : Option (List Nat) :=
  match obj.document_base64 with
  | none => none
  | some s => if s = [] then none else some (decodeOrRaw s)

/-- docSlotsChunk holds the hash, size and formatCode slots attached when
document bytes are present. -/
def docSlotsChunk (obj : SOAPInput) : List Xml :=
  match docBytesOf obj with
  | some b =>
    [slotXml (strL "hash") [sha1Hex b], slotXml (strL "size") [natDec b.length],
     slotXml (strL "formatCode") [docFormatCode obj]]
  | none => []

/-- exXml builds the ExtrinsicObject (DocumentEntry) element. -/
def exXml (u : Nat → Str) (nowTs : Str) (obj : SOAPInput) : Xml :=
  let doc_id := docIdOf u obj
  .elem (qtag NS_RIM "ExtrinsicObject")
    [(strL "id", doc_id),
     (strL "objectType", pyOr obj.object_type OBJECTTYPE_ONDEMAND),
     (strL "mimeType", pyOr obj.mime_type (strL "text/xml"))]
    ([locStr "Name" "Clinical Document",
      locStr "Description" "Document (CDA or other)"] ++
     (if pyTruthyB obj.class_code then
        [classificationXml (strL "urn:ksa-ehealth:classcodes:2023") (pyOr obj.class_code [])
          (urnUuid (u 4))] else []) ++
     (if pyTruthyB obj.type_code then
        [classificationXml (strL "urn:uuid:aa543740-bdda-424e-8c96-df4873be8500")
          (pyOr obj.type_code []) (urnUuid (u 5))] else []) ++
     [extIdXml (urnUuid (u 6)) doc_id UNIQUEID_SCHEME doc_id,
      extIdXml (urnUuid (u 7)) doc_id UNIQUEID_SCHEME obj.patient_id] ++
     (if pyTruthyB obj.source_id then
        [extIdXml (urnUuid (u 8)) doc_id UNIQUEID_SCHEME (pyOr obj.source_id [])] else []) ++
     [slotXml (strL "creationTime") [pyOr obj.creation_time nowTs]] ++
     docSlotsChunk obj ++
     (if pyTruthyB obj.practice_setting_code then
        [slotXml (strL "practiceSettingCode") [pyOr obj.practice_setting_code []]] else []) ++
     (if pyTruthyB obj.repository_unique_id then
        [slotXml (strL "repositoryUniqueID") [pyOr obj.repository_unique_id []]] else [])) []

/-- assocXml builds the Association element linking the SubmissionSet to the
DocumentEntry. -/
def assocXml (u : Nat → Str) (obj : SOAPInput) : Xml :=
  .elem (qtag NS_RIM "Association")
    [(strL "id", urnUuid (u 9)),
     (strL "associationType", strL "urn:oasis:names:tc:ebxml-regrep:AssociationType:HasMember"),
     (strL "sourceObject", strL "rs." ++ submissionIdOf u obj),
     (strL "targetObject", docIdOf u obj),
     (strL "status", strL "urn:oasis:names:tc:ebxml-regrep:StatusType:Approved")] [] []

/-- docElemChunk is the inline Document element embedded next to the
SubmitObjectsRequest when document bytes are present. -/
def docElemChunk (u : Nat → Str) (obj : SOAPInput) : List Xml :=
  match docBytesOf obj with
  | some b =>
    [.elem (strL "Document")
      [(strL "id", docIdOf u obj), (strL "mimeType", pyOr obj.mime_type (strL "text/xml"))]
      [] (b64encode b)]
  | none => []

/-- soapHeaderXml builds the WS-Addressing SOAP header. -/
def soapHeaderXml (u : Nat → Str) (obj : SOAPInput) : Xml :=
  .elem (qtag NS_S "Header") []
    [.elem (qtag NS_A "Action") [] []
       (pyGet obj.soap (strL "action") (strL "urn:ihe:iti:2007:ProvideAndRegisterDocumentSet-b")),
     .elem (qtag NS_A "MessageID") [] [] (pyGet obj.soap (strL "message_id") (u 0)),
     .elem (qtag NS_A "To") [] []
       (pyGet obj.soap (strL "to") (pyOr obj.repository_address []))] []

/-- sourceIdViolation is the guard raised at the top of `build_iti41_ebxml`:
a truthy `source_id` that does not start with the national org root OID. -/
def sourceIdViolation (obj : SOAPInput) : Bool :=
  pyTruthyB obj.source_id && !startsW NATIONAL_ORG_ROOT (pyOr obj.source_id [])

/-- iti41Envelope is the SOAP envelope element tree `build_iti41_ebxml`
assembles. -/
def iti41Envelope (u : Nat → Str) (nowTs : Str) (obj : SOAPInput) : Xml :=
  .elem (qtag NS_S "Envelope") []
    [soapHeaderXml u obj,
     .elem (qtag NS_S "Body") []
       [.elem (qtag NS_XDS "ProvideAndRegisterDocumentSetRequest") []
         ([.elem (qtag NS_LCM "SubmitObjectsRequest") []
            [.elem (qtag NS_RIM "RegistryObjectList") []
              [regpkgXml u nowTs obj, exXml u nowTs obj, assocXml u obj] []] []] ++
          docElemChunk u obj) []] []] []

/-- build_iti41_ebxml models `build_iti41_ebxml` as the element tree it
serialises (the produced XML string is this tree written out by
`ET.tostring`); the raised `HTTPException` on a bad `source_id` is the
`Except.error` case. -/
def build_iti41_ebxml (u : Nat → Str) (nowTs : Str) (obj : SOAPInput) : Except Str Xml :=
  if sourceIdViolation obj then
    .error (strL "source_id must start with " ++ NATIONAL_ORG_ROOT)
  else
    .ok (iti41Envelope u nowTs obj)

mutual

def findAllLocal (t : String) : Xml → List Xml
  | .elem tag attrs cs tx =>
    (if localName tag = strL t then [.elem tag attrs cs tx] else []) ++ findAllLocalL t cs

def findAllLocalL (t : String) : List Xml → List Xml
  | [] => []
  | x :: xs => findAllLocal t x ++ findAllLocalL t xs

end

/-- getAttr looks an attribute up by name, as `el.get(name)`. -/
def getAttr (x : Xml) (nm : String) : Option Str :=
  ((xmlAttrs x).find? (fun p => p.1 = strL nm)).map (fun p => p.2)

/-- slotValue reads the single Value text of the named Slot child of an
element, the shape `add_slot` produces. -/
def slotValue (x : Xml) (nm : String) : Option Str :=
  ((xmlChildren x).find?
      (fun c => localName (xmlTag c) = strL "Slot" && getAttr c "name" = some (strL nm))).bind
    (fun c => ((findAllLocal "Value" c).head?).map xmlText)

/-!  MTOM/XOP transport selection (the `/convert/json-to-iti41` endpoint).  -/

/-- mtomInlineCond is the size test `len(doc_bytes) / 1024.0 < 256` of the
endpoint.  The float division by 1024 is exact for any realistic length
(below 2 to the 53rd), so the rational model is faithful. -/
def mtomInlineCond (docBytes : List Nat) : Prop :=
  (docBytes.length : ℚ) / 1024 < 256

/-- api_doc_id is the `payload.unique_id or "urn:uuid:doc-1"` computed by
the endpoint and passed to the MTOM rewrite and the multipart content-id. -/
def api_doc_id (obj : SOAPInput) : Str :=
  pyOr obj.unique_id (strL "urn:uuid:doc-1")

/-- xopReplacement is the replacement text the MTOM rewrite substitutes for
the matched Document element. -/
def xopReplacement (docId mime : Str) : Str :=
  strL "<Document id=\"" ++ docId ++ strL "\" mimeType=\"" ++ mime ++ strL "\">" ++
    strL "<xop:Include href=\"cid:" ++ docId ++
    strL "@example.com\" xmlns:xop=\"http://www.w3.org/2004/08/xop/include\"/>" ++
    strL "</Document>"

/-- docOpenLit is the literal head of the rewrite pattern,
`<Document id="DOCID"`. -/
def docOpenLit (docId : Str) : Str :=
  strL "<Document id=\"" ++ docId ++ ['"']

/-- findSubIdx returns the index of the first occurrence of `pat`. -/
def findSubIdx (pat : Str) : Str → Option Nat
  | [] => if pat.isPrefixOf ([] : Str) then some 0 else none
  | c :: rest =>
    if pat.isPrefixOf (c :: rest) then some 0 else (findSubIdx pat rest).map (fun n => n + 1)

/-- tryMatchDoc attempts the regex
`<Document id="DOCID"[^>]*>.*?</Document>` (DOTALL) at the head of `s`,
returning the length of the match: the literal head, a maximal run of
non-`>` characters, a `>`, then lazily up to the first `</Document>`. -/
def tryMatchDoc (docId : Str) (s : Str) : Option Nat :=
  let lit := docOpenLit docId
  if lit.isPrefixOf s then
    let rest := s.drop lit.length
    let attrsPart := rest.takeWhile (fun c => c ≠ '>')
    match rest.drop attrsPart.length with
    | '>' :: rest₂ =>
      (findSubIdx (strL "</Document>") rest₂).map
        (fun k => lit.length + attrsPart.length + 1 + k + (strL "</Document>").length)
    | _ => none
  else none

/-- mtomSubAux scans the text left to right and replaces every match of the
rewrite pattern, continuing after each replacement, exactly as `re.sub`
does; the fuel starts at the text length, sufficient because each step
consumes at least one character. -/
def mtomSubAux (docId mime : Str) : Nat → Str → Str
  | 0, s => s
  | fuel + 1, s =>
    match s with
    | [] => []
    | c :: rest =>
      match tryMatchDoc docId s with
      | some k => xopReplacement docId mime ++ mtomSubAux docId mime fuel (s.drop k)
      | none => c :: mtomSubAux docId mime fuel rest

/-- build_iti41_mtom_envelope models `build_iti41_mtom_envelope`: the
`re.sub` that rewrites the inline Document element into an xop:Include
reference. -/
def build_iti41_mtom_envelope (xml docId mime : Str) : Str :=
  mtomSubAux docId mime xml.length xml

/-!  Core lemmas about splitting and joining.  -/

theorem splitOnChar_ne_nil (c : Char) (s : Str) : splitOnChar c s ≠ [] := by
  cases s with
  | nil => simp [splitOnChar]
  | cons x xs =>
    simp only [splitOnChar]
    rcases h : splitOnChar c xs with _ | ⟨s0, rest⟩
    · simp
    · split_ifs <;> simp

theorem splitOnChar_not_mem {c : Char} {a : Str} (h : c ∉ a) : splitOnChar c a = [a] := by
  induction a with
  | nil => rfl
  | cons x xs ih =>
    have hx : ¬ x = c := fun e => h (by simp [e])
    have hxs : c ∉ xs := fun m => h (List.mem_cons_of_mem _ m)
    simp [splitOnChar, ih hxs, hx]

theorem splitOnChar_append_cons {c : Char} {a : Str} (b : Str) (h : c ∉ a) :
    splitOnChar c (a ++ c :: b) = a :: splitOnChar c b := by
  induction a with
  | nil =>
    simp only [List.nil_append, splitOnChar]
    rcases hb : splitOnChar c b with _ | ⟨s0, rest⟩
    · exact absurd hb (splitOnChar_ne_nil c b)
    · simp
  | cons x xs ih =>
    have hx : ¬ x = c := fun e => h (by simp [e])
    have hxs : c ∉ xs := fun m => h (List.mem_cons_of_mem _ m)
    have e : ((x :: xs : Str) ++ c :: b) = x :: (xs ++ c :: b) := rfl
    rw [e]
    simp only [splitOnChar]
    rw [ih hxs]
    simp [hx]

theorem joinSep_cons_cons (c : Char) (s t : Str) (rest : List Str) :
    joinSep c (s :: t :: rest) = s ++ c :: joinSep c (t :: rest) := rfl

theorem split_joinSep (c : Char) (L : List Str) (hne : L ≠ [])
    (h : ∀ s ∈ L, c ∉ s) : splitOnChar c (joinSep c L) = L := by
  induction L with
  | nil => exact absurd rfl hne
  | cons s rest ih =>
    cases rest with
    | nil => exact splitOnChar_not_mem (h s (List.mem_cons_self s []))
    | cons t rest₂ =>
      rw [joinSep_cons_cons, splitOnChar_append_cons _ (h s (List.mem_cons_self _ _)),
        ih (by simp) (fun x hx => h x (List.mem_cons_of_mem _ hx))]

/-- segName is the dispatch key of the decoder: the first `|`-field. -/
def segName (seg : Str) : Str := (splitOnChar '|' seg).headD []

theorem segName_of_eq (seg tag rest : Str) (e : seg = tag ++ '|' :: rest)
    (h : '|' ∉ tag) : segName seg = tag := by
  rw [segName, e, splitOnChar_append_cons _ h]
  rfl

/-!  Escaper lemmas.  -/

theorem pyReplaceChar_append (old : Char) (new a b : Str) :
    pyReplaceChar old new (a ++ b) = pyReplaceChar old new a ++ pyReplaceChar old new b := by
  simp [pyReplaceChar]

theorem escape_append (a b : Str) :
    escape_hl7_field (some (a ++ b)) = escape_hl7_field (some a) ++ escape_hl7_field (some b) := by
  simp [escape_hl7_field, pyReplaceChar_append]

theorem escape_char (x : Char) : escape_hl7_field (some [x]) = escMapChar x := by
  by_cases h1 : x = '|'
  · subst h1; rfl
  · by_cases h2 : x = '^'
    · subst h2; rfl
    · by_cases h3 : x = '&'
      · subst h3; rfl
      · by_cases h4 : x = '~'
        · subst h4; rfl
        · simp [escape_hl7_field, pyReplaceChar, escMapChar, h1, h2, h3, h4]

theorem escape_eq_flatMap (s : Str) :
    escape_hl7_field (some s) = s.flatMap escMapChar := by
  induction s with
  | nil => rfl
  | cons x xs ih =>
    have : (x :: xs : Str) = [x] ++ xs := rfl
    rw [this, escape_append, ih, escape_char]
    simp

theorem no_pipe_escMapChar (x : Char) : '|' ∉ escMapChar x := by
  by_cases h1 : x = '|'
  · subst h1; decide
  · by_cases h2 : x = '^'
    · subst h2; decide
    · by_cases h3 : x = '&'
      · subst h3; decide
      · by_cases h4 : x = '~'
        · subst h4; decide
        · simp only [escMapChar, h1, h2, h3, h4, if_false]
          simp [List.mem_singleton]
          exact fun e => h1 e.symm

theorem escape_no_pipe (s : Str) : '|' ∉ escape_hl7_field (some s) := by
  rw [escape_eq_flatMap]
  intro h
  obtain ⟨x, _, hx⟩ := List.mem_flatMap.mp h
  exact no_pipe_escMapChar x hx

/-- claim C8: the escaper realises exactly the four-delimiter mapping
(absent input giving the empty string), the escaped output never contains
a raw `|`, and a segment whose other fields are pipe-free splits on `|`
back into exactly its field list, so embedding an escaped value preserves
the field count. -/
theorem claim_C8 :
    escape_hl7_field none = [] ∧
    (∀ s, escape_hl7_field (some s) = s.flatMap escMapChar) ∧
    (∀ s, '|' ∉ escape_hl7_field (some s)) ∧
    (∀ (pre post : List Str) (v : Str),
      (∀ f ∈ pre, '|' ∉ f) → (∀ f ∈ post, '|' ∉ f) →
      splitOnChar '|' (joinSep '|' (pre ++ escape_hl7_field (some v) :: post)) =
          pre ++ escape_hl7_field (some v) :: post ∧
        (splitOnChar '|' (joinSep '|' (pre ++ escape_hl7_field (some v) :: post))).length =
          pre.length + post.length + 1) := by
  refine ⟨rfl, escape_eq_flatMap, escape_no_pipe, ?_⟩
  intro pre post v hpre hpost
  have hall : ∀ f ∈ pre ++ escape_hl7_field (some v) :: post, '|' ∉ f := by
    intro f hf
    rcases List.mem_append.mp hf with h | h
    · exact hpre f h
    · rcases List.mem_cons.mp h with h | h
      · subst h; exact escape_no_pipe v
      · exact hpost f h
  have hs := split_joinSep '|' (pre ++ escape_hl7_field (some v) :: post) (by simp) hall
  refine ⟨hs, ?_⟩
  rw [hs]
  simp
  omega

/-- claim C8 witness: a concrete field containing all four reserved
characters, escaped and embedded between other fields, splits back to the
same field list of the expected length. -/
theorem claim_C8_witness :
    splitOnChar '|' (joinSep '|'
        ([strL "AL1", strL "1"] ++ escape_hl7_field (some (strL "a|b^c&d~e")) :: [strL "x"])) =
      [strL "AL1", strL "1"] ++ escape_hl7_field (some (strL "a|b^c&d~e")) :: [strL "x"] ∧
    (splitOnChar '|' (joinSep '|'
        ([strL "AL1", strL "1"] ++ escape_hl7_field (some (strL "a|b^c&d~e")) :: [strL "x"]))).length =
      [strL "AL1", strL "1"].length + [strL "x"].length + 1 :=
  claim_C8.2.2.2 [strL "AL1", strL "1"] [strL "x"] (strL "a|b^c&d~e")
    (by decide) (by decide)

/-- claim C3 divergence witness: the code strips from the first of the
characters `-`, `:`, `T` to the end, so the documented example input
`1980-01-01T00:00:00Z` yields `1980`, not the `19800101` the
specification asserts; the empty-string example does hold. -/
theorem claim_C3_divergence :
    normalize_dob (some (strL "1980-01-01T00:00:00Z")) = some (strL "1980") ∧
    some (strL "1980") ≠ some (strL "19800101") ∧
    normalize_dob (some (strL "")) = some (strL "") ∧
    normalize_dob none = none := by
  refine ⟨by decide, by decide, by decide, rfl⟩

/-- claim C5, amended: with an absent (or empty) timestamp the current UTC
time is formatted; the documented ISO example reformats to 14 digits; and
on any non-empty input that fails the ISO parse the code keeps the digits
and truncates to at most 14 characters, without padding. -/
theorem claim_C5 :
    (∀ now, ts_to_hl7 now none = formatTs now) ∧
    (∀ now, ts_to_hl7 now (some (strL "2025-10-21T12:30:00Z")) = strL "20251021123000") ∧
    (∀ now ts, ts ≠ [] →
      fromisoformat (pyReplaceChar 'Z' (strL "+00:00") ts) = none →
      ts_to_hl7 now (some ts) = (ts.filter Char.isDigit).take 14) := by
  refine ⟨fun now => rfl, fun now => rfl, ?_⟩
  intro now ts hne hfail
  simp [ts_to_hl7, hne, hfail]

/-- claim C5 witness: a concrete non-ISO input takes the digit-extraction
path of the theorem and evaluates to the 12-digit string it promises. -/
theorem claim_C5_witness :
    ts_to_hl7 ⟨2020, 1, 1, 0, 0, 0⟩ (some (strL "21/10/2025 12:30")) = strL "211020251230" :=
  (claim_C5.2.2 ⟨2020, 1, 1, 0, 0, 0⟩ (strL "21/10/2025 12:30") (by decide)
      (by decide)).trans (by decide)

/-- claim C5 counterexample: the claim says a parse failure truncates or
pads the digit string to 14 characters, but the code only truncates: the
failing input `5x` yields the single character `5`, not a 14-character
result. -/
theorem claim_C5_counterexample :
    ts_to_hl7 ⟨2020, 1, 1, 0, 0, 0⟩ (some (strL "5x")) = strL "5" ∧
    (ts_to_hl7 ⟨2020, 1, 1, 0, 0, 0⟩ (some (strL "5x"))).length ≠ 14 := by
  exact ⟨by decide, by decide⟩

/-- claim C9: a message exercising every decoded segment kind with no
fields at all (so that every captured field index is out of range) decodes
without failure, every captured value coming back as the empty string;
the PV2 segment is preceded by a PV1 so its guarded accesses are reached. -/
theorem claim_C9 :
    hl7_full_to_json
        (strL "MSH\rEVN\rPID\rPD1\rPV1\rPV2\rMRG\rAL1\rDG1\rPR1\rNK1\rGT1\rIN1") =
      .ok ⟨⟨some [], some [], some [], some [], some [], some [], some [], some [],
            some [], some []⟩,
        some ⟨[[]], [], [], []⟩, some ⟨[], []⟩, some ⟨[], [], [], [], some [], some []⟩,
        some ⟨[], []⟩, [⟨[], []⟩], [⟨[], []⟩], [⟨[], []⟩], [⟨[], [], []⟩],
        [⟨[], [], [], []⟩], [⟨[], [], [], [], []⟩]⟩ := by
  decide

/-!  Decoder step lemmas.  -/

theorem except_bind_ok {ε α β : Type} (x : α) (f : α → Except ε β) :
    (Except.ok x >>= f) = f x := rfl

theorem except_bind_error {ε α β : Type} (e : ε) (f : α → Except ε β) :
    ((Except.error e : Except ε α) >>= f) = .error e := rfl

theorem foldlM_hl7_nil (r : DecodeResult) : List.foldlM hl7Step r [] = .ok r := rfl

theorem foldlM_hl7_cons (r : DecodeResult) (s : Str) (L : List Str) :
    List.foldlM hl7Step r (s :: L) =
      (hl7Step r s) >>= fun r₂ => List.foldlM hl7Step r₂ L := rfl

theorem foldlM_hl7_append (r : DecodeResult) (L₁ L₂ : List Str) :
    List.foldlM hl7Step r (L₁ ++ L₂) =
      (List.foldlM hl7Step r L₁) >>= fun r₂ => List.foldlM hl7Step r₂ L₂ := by
  induction L₁ generalizing r with
  | nil => rfl
  | cons s L ih =>
    rw [List.cons_append, foldlM_hl7_cons, foldlM_hl7_cons]
    cases hl7Step r s with
    | error e => rfl
    | ok r₂ => rw [except_bind_ok, except_bind_ok, ih]

theorem hl7Step_other (r : DecodeResult) (seg : Str)
    (h1 : segName seg ≠ strL "PID") (h2 : segName seg ≠ strL "PV1")
    (h3 : segName seg ≠ strL "PV2") :
    ∃ r₂, hl7Step r seg = .ok r₂ ∧ r₂.patient = r.patient ∧ r₂.visit = r.visit := by
  simp only [segName] at h1 h2 h3
  simp only [hl7Step]
  by_cases c1 : (splitOnChar '|' seg).headD [] = strL "MSH"
  · rw [if_pos c1]; exact ⟨_, rfl, rfl, rfl⟩
  rw [if_neg c1]
  by_cases c2 : (splitOnChar '|' seg).headD [] = strL "EVN"
  · rw [if_pos c2]; exact ⟨_, rfl, rfl, rfl⟩
  rw [if_neg c2, if_neg h1]
  by_cases c4 : (splitOnChar '|' seg).headD [] = strL "PD1"
  · rw [if_pos c4]; exact ⟨_, rfl, rfl, rfl⟩
  rw [if_neg c4, if_neg h2, if_neg h3]
  by_cases c7 : (splitOnChar '|' seg).headD [] = strL "MRG"
  · rw [if_pos c7]; exact ⟨_, rfl, rfl, rfl⟩
  rw [if_neg c7]
  by_cases c8 : (splitOnChar '|' seg).headD [] = strL "AL1"
  · rw [if_pos c8]; exact ⟨_, rfl, rfl, rfl⟩
  rw [if_neg c8]
  by_cases c9 : (splitOnChar '|' seg).headD [] = strL "DG1"
  · rw [if_pos c9]; exact ⟨_, rfl, rfl, rfl⟩
  rw [if_neg c9]
  by_cases c10 : (splitOnChar '|' seg).headD [] = strL "PR1"
  · rw [if_pos c10]; exact ⟨_, rfl, rfl, rfl⟩
  rw [if_neg c10]
  by_cases c11 : (splitOnChar '|' seg).headD [] = strL "NK1"
  · rw [if_pos c11]; exact ⟨_, rfl, rfl, rfl⟩
  rw [if_neg c11]
  by_cases c12 : (splitOnChar '|' seg).headD [] = strL "GT1"
  · rw [if_pos c12]; exact ⟨_, rfl, rfl, rfl⟩
  rw [if_neg c12]
  by_cases c13 : (splitOnChar '|' seg).headD [] = strL "IN1"
  · rw [if_pos c13]; exact ⟨_, rfl, rfl, rfl⟩
  rw [if_neg c13]
  exact ⟨_, rfl, rfl, rfl⟩

theorem hl7Step_visit_preserved (r : DecodeResult) (seg : Str)
    (h2 : segName seg ≠ strL "PV1") (h3 : segName seg ≠ strL "PV2") :
    ∃ r₂, hl7Step r seg = .ok r₂ ∧ r₂.visit = r.visit := by
  simp only [segName] at h2 h3
  simp only [hl7Step]
  by_cases c1 : (splitOnChar '|' seg).headD [] = strL "MSH"
  · rw [if_pos c1]; exact ⟨_, rfl, rfl⟩
  rw [if_neg c1]
  by_cases c2 : (splitOnChar '|' seg).headD [] = strL "EVN"
  · rw [if_pos c2]; exact ⟨_, rfl, rfl⟩
  rw [if_neg c2]
  by_cases c3 : (splitOnChar '|' seg).headD [] = strL "PID"
  · rw [if_pos c3]; exact ⟨_, rfl, rfl⟩
  rw [if_neg c3]
  by_cases c4 : (splitOnChar '|' seg).headD [] = strL "PD1"
  · rw [if_pos c4]; exact ⟨_, rfl, rfl⟩
  rw [if_neg c4, if_neg h2, if_neg h3]
  by_cases c7 : (splitOnChar '|' seg).headD [] = strL "MRG"
  · rw [if_pos c7]; exact ⟨_, rfl, rfl⟩
  rw [if_neg c7]
  by_cases c8 : (splitOnChar '|' seg).headD [] = strL "AL1"
  · rw [if_pos c8]; exact ⟨_, rfl, rfl⟩
  rw [if_neg c8]
  by_cases c9 : (splitOnChar '|' seg).headD [] = strL "DG1"
  · rw [if_pos c9]; exact ⟨_, rfl, rfl⟩
  rw [if_neg c9]
  by_cases c10 : (splitOnChar '|' seg).headD [] = strL "PR1"
  · rw [if_pos c10]; exact ⟨_, rfl, rfl⟩
  rw [if_neg c10]
  by_cases c11 : (splitOnChar '|' seg).headD [] = strL "NK1"
  · rw [if_pos c11]; exact ⟨_, rfl, rfl⟩
  rw [if_neg c11]
  by_cases c12 : (splitOnChar '|' seg).headD [] = strL "GT1"
  · rw [if_pos c12]; exact ⟨_, rfl, rfl⟩
  rw [if_neg c12]
  by_cases c13 : (splitOnChar '|' seg).headD [] = strL "IN1"
  · rw [if_pos c13]; exact ⟨_, rfl, rfl⟩
  rw [if_neg c13]
  exact ⟨_, rfl, rfl⟩

theorem hl7Step_pid (r : DecodeResult) (seg : Str) (h : segName seg = strL "PID") :
    hl7Step r seg = .ok { r with patient := some (⟨[(splitOnChar '|' seg).getD 3 []],
      (splitOnChar '|' seg).getD 5 [], (splitOnChar '|' seg).getD 7 [],
      (splitOnChar '|' seg).getD 8 []⟩ : PidD) } := by
  simp only [segName] at h
  simp only [hl7Step]
  rw [h, if_neg (by decide), if_neg (by decide), if_pos rfl]

theorem hl7Step_pv1 (r : DecodeResult) (seg : Str) (h : segName seg = strL "PV1") :
    ∃ v, hl7Step r seg = .ok { r with visit := some v } := by
  simp only [segName] at h
  simp only [hl7Step]
  rw [h, if_neg (by decide), if_neg (by decide), if_neg (by decide), if_neg (by decide),
    if_pos rfl]
  exact ⟨_, rfl⟩

theorem hl7Step_pv2_none (r : DecodeResult) (seg : Str) (h : segName seg = strL "PV2")
    (hv : r.visit = none) : hl7Step r seg = .error () := by
  simp only [segName] at h
  simp only [hl7Step]
  rw [h, if_neg (by decide), if_neg (by decide), if_neg (by decide), if_neg (by decide),
    if_neg (by decide), if_pos rfl, hv]

theorem hl7Step_pv2_some (r : DecodeResult) (seg : Str) (v : VisitD)
    (h : segName seg = strL "PV2") (hv : r.visit = some v) :
    ∃ r₂, hl7Step r seg = .ok r₂ ∧ r₂.patient = r.patient := by
  simp only [segName] at h
  simp only [hl7Step]
  rw [h, if_neg (by decide), if_neg (by decide), if_neg (by decide), if_neg (by decide),
    if_neg (by decide), if_pos rfl, hv]
  exact ⟨_, rfl, rfl⟩

/-- claim C10: any message whose filtered segment list reaches a PV2
segment with no PV1 segment anywhere before it makes the decoder raise
(the `visit` entry is still `None`, `setdefault` hands that `None` back,
and the item assignment fails), so `hl7_full_to_json` returns an error
rather than a result. -/
theorem claim_C10 (msg : Str) (pre : List Str) (s : Str) (post : List Str)
    (hsegs : (splitOnChar '\r' msg).filter pyStripTruthy = pre ++ s :: post)
    (hs : segName s = strL "PV2")
    (hpre : ∀ t ∈ pre, segName t ≠ strL "PV1") :
    hl7_full_to_json msg = .error () := by
  have main : ∀ (pre₂ : List Str) (r : DecodeResult), r.visit = none →
      (∀ t ∈ pre₂, segName t ≠ strL "PV1") →
      List.foldlM hl7Step r (pre₂ ++ s :: post) = .error () := by
    intro pre₂
    induction pre₂ with
    | nil =>
      intro r hv _
      rw [List.nil_append, foldlM_hl7_cons, hl7Step_pv2_none r s hs hv, except_bind_error]
    | cons t pre' ih =>
      intro r hv hp
      rw [List.cons_append, foldlM_hl7_cons]
      by_cases hpv2 : segName t = strL "PV2"
      · rw [hl7Step_pv2_none r t hpv2 hv, except_bind_error]
      · obtain ⟨r₂, e, hvv⟩ :=
          hl7Step_visit_preserved r t (hp t (List.mem_cons_self _ _)) hpv2
        rw [e, except_bind_ok]
        exact ih r₂ (hvv.trans hv) (fun x hx => hp x (List.mem_cons_of_mem _ hx))
  rw [hl7_full_to_json, hsegs]
  exact main pre initResult rfl hpre

/-- claim C10 witness: a concrete message whose PV2 segment is not
preceded by any PV1 makes the decode fail. -/
theorem claim_C10_witness : hl7_full_to_json (strL "MSH|x\rPV2|1|2|3|4") = .error () :=
  claim_C10 (strL "MSH|x\rPV2|1|2|3|4") [strL "MSH|x"] (strL "PV2|1|2|3|4") []
    (by decide) (by decide) (by decide)

/-- claim C4: with a non-empty identifier list, HL7 encoding fails exactly
when the first identifier's assigning authority differs from the fixed
health-ID OID; when it matches, the PID segment is rendered from that
first identifier alone as `id^^^OID^ISO` and replacing the remaining
identifiers leaves `build_pid` unchanged. -/
theorem claim_C4 (now : PyDateTime) (ctrl : Str) (payload : HL7FullInput)
    (first : Identifier) (rest : List Identifier)
    (hids : payload.patient.identifiers = first :: rest) :
    ((∃ e, json_to_hl7_full now ctrl payload = .error e) ↔
      first.assigning_authority ≠ some ASSIGNING_AUTHORITY_HEALTH_ID) ∧
    (first.assigning_authority = some ASSIGNING_AUTHORITY_HEALTH_ID →
      build_pid payload.patient = .ok
        (strL "PID|1||" ++ first.id ++ strL "^^^" ++ ASSIGNING_AUTHORITY_HEALTH_ID ++
          strL "^ISO||" ++ pidName payload.patient ++ strL "||" ++
          pyOr payload.patient.dob [] ++ strL "|" ++ pyOr payload.patient.sex []) ∧
      (∀ rest₂, build_pid { payload.patient with identifiers := first :: rest₂ } =
        build_pid payload.patient)) := by
  constructor
  · by_cases hauth : first.assigning_authority = some ASSIGNING_AUTHORITY_HEALTH_ID
    · simp only [hauth, ne_eq, not_true_eq_false, iff_false, not_exists]
      intro e he
      rw [json_to_hl7_full, hl7Segments, build_pid, hids] at he
      simp [hauth] at he
    · simp only [hauth, ne_eq, not_false_eq_true, iff_true]
      have he : json_to_hl7_full now ctrl payload =
          .error (strL "Patient first identifier assigning_authority must be " ++
            ASSIGNING_AUTHORITY_HEALTH_ID) := by
        rw [json_to_hl7_full, hl7Segments, build_pid, hids]
        simp [hauth]
      exact ⟨_, he⟩
  · intro hauth
    constructor
    · rw [build_pid, hids]
      simp only [hauth, ne_eq, not_true_eq_false, if_false, ite_false]
      rw [pid3Of, hauth]
      simp only [pyStr, List.append_assoc]
      rfl
    · intro rest₂
      rw [build_pid, build_pid, hids]
      rfl

/-- claim C4 witness: a concrete payload whose single identifier carries a
wrong assigning authority makes the encode fail, per the equivalence. -/
theorem claim_C4_witness :
    (∃ e, json_to_hl7_full ⟨2020, 1, 1, 0, 0, 0⟩ (strL "C1")
        ⟨⟨strL "ADT^A01", none, none, none, none, none, none, none⟩,
         ⟨[⟨strL "X1", some (strL "9.9.9"), none⟩], none, none, none, none, none⟩,
         none, none, none, none, none, none, none, none, none⟩ = .error e) ↔
      (⟨strL "X1", some (strL "9.9.9"), none⟩ : Identifier).assigning_authority ≠
        some ASSIGNING_AUTHORITY_HEALTH_ID :=
  (claim_C4 ⟨2020, 1, 1, 0, 0, 0⟩ (strL "C1") _ ⟨strL "X1", some (strL "9.9.9"), none⟩ []
    rfl).1

/-!  Machinery for the encode-then-decode round trip (claim C2).  -/

theorem pyStripTruthy_append_left (s t : Str) (h : pyStripTruthy s = true) :
    pyStripTruthy (s ++ t) = true := by
  simp only [pyStripTruthy, List.any_append] at *
  rw [h, Bool.true_or]

/-- TailTag collects the segment names whose decode branch neither touches
the patient entry nor the visit entry nor can fail. -/
def TailTag (tag : Str) : Prop :=
  tag = strL "PD1" ∨ tag = strL "MRG" ∨ tag = strL "AL1" ∨ tag = strL "DG1" ∨
  tag = strL "PR1" ∨ tag = strL "NK1" ∨ tag = strL "GT1" ∨ tag = strL "IN1"

theorem tailTag_ne {t : Str} (h : TailTag t) :
    t ≠ strL "PID" ∧ t ≠ strL "PV1" ∧ t ≠ strL "PV2" := by
  rcases h with rfl | rfl | rfl | rfl | rfl | rfl | rfl | rfl <;>
    exact ⟨by decide, by decide, by decide⟩

/-- TailSeg says a segment carries a tail tag and survives the blank-segment
filter. -/
def TailSeg (s : Str) : Prop := TailTag (segName s) ∧ pyStripTruthy s = true

theorem tailSeg_of_decomp (s tag rest : Str) (e : s = tag ++ '|' :: rest)
    (ht : TailTag tag) (hws : pyStripTruthy tag = true) : TailSeg s := by
  refine ⟨?_, ?_⟩
  · rw [segName_of_eq s tag rest e ?_]
    · exact ht
    · intro hp
      rcases tailTag_ne ht with ⟨_, _, _⟩
      rcases ht with rfl | rfl | rfl | rfl | rfl | rfl | rfl | rfl <;> revert hp <;> decide
  · rw [e]
    exact pyStripTruthy_append_left tag _ hws

theorem tailSeg_pd1 (x : Option PD1Model) : ∀ s ∈ pd1Chunk x, TailSeg s := by
  intro s hs
  match x with
  | none => simp [pd1Chunk] at hs
  | some m =>
    simp only [pd1Chunk, List.mem_singleton] at hs
    subst hs
    exact tailSeg_of_decomp _ (strL "PD1") _ rfl (Or.inl rfl) (by decide)

theorem tailSeg_mrg (x : Option (List (Str × Str))) : ∀ s ∈ mrgChunk x, TailSeg s := by
  intro s hs
  match x with
  | none => simp [mrgChunk] at hs
  | some [] => simp [mrgChunk] at hs
  | some (p :: ps) =>
    simp only [mrgChunk, List.mem_singleton] at hs
    subst hs
    exact tailSeg_of_decomp _ (strL "MRG") _ rfl (Or.inr (Or.inl rfl)) (by decide)

theorem tailSeg_listChunk {α : Type} (f : α → Str) (tag : Str)
    (hf : ∀ a, ∃ rest, f a = tag ++ '|' :: rest) (ht : TailTag tag)
    (hws : pyStripTruthy tag = true) (x : Option (List α)) :
    ∀ s ∈ listChunk f x, TailSeg s := by
  intro s hs
  match x with
  | none => simp [listChunk] at hs
  | some l =>
    simp only [listChunk, List.mem_map] at hs
    obtain ⟨a, _, rfl⟩ := hs
    obtain ⟨rest, hr⟩ := hf a
    exact tailSeg_of_decomp _ tag rest hr ht hws

theorem tailSeg_al1 (x : Option (List (List (Str × Str)))) :
    ∀ s ∈ listChunk al1Seg x, TailSeg s :=
  tailSeg_listChunk al1Seg (strL "AL1") (fun a => ⟨_, rfl⟩)
    (Or.inr (Or.inr (Or.inl rfl))) (by decide) x

theorem tailSeg_dg1 (x : Option (List (List (Str × Str)))) :
    ∀ s ∈ listChunk dg1Seg x, TailSeg s :=
  tailSeg_listChunk dg1Seg (strL "DG1") (fun a => ⟨_, rfl⟩)
    (Or.inr (Or.inr (Or.inr (Or.inl rfl)))) (by decide) x

theorem tailSeg_pr1 (x : Option (List (List (Str × Str)))) :
    ∀ s ∈ listChunk pr1Seg x, TailSeg s :=
  tailSeg_listChunk pr1Seg (strL "PR1") (fun a => ⟨_, rfl⟩)
    (Or.inr (Or.inr (Or.inr (Or.inr (Or.inl rfl))))) (by decide) x

theorem tailSeg_nk1 (x : Option (List NK1Model)) :
    ∀ s ∈ listChunk nk1Seg x, TailSeg s :=
  tailSeg_listChunk nk1Seg (strL "NK1") (fun a => ⟨_, rfl⟩)
    (Or.inr (Or.inr (Or.inr (Or.inr (Or.inr (Or.inl rfl)))))) (by decide) x

theorem tailSeg_gt1 (x : Option (List GT1Model)) :
    ∀ s ∈ listChunk gt1Seg x, TailSeg s :=
  tailSeg_listChunk gt1Seg (strL "GT1") (fun a => ⟨_, rfl⟩)
    (Or.inr (Or.inr (Or.inr (Or.inr (Or.inr (Or.inr (Or.inl rfl))))))) (by decide) x

theorem tailSeg_in1 (x : Option (List IN1Model)) :
    ∀ s ∈ listChunk in1Seg x, TailSeg s :=
  tailSeg_listChunk in1Seg (strL "IN1") (fun a => ⟨_, rfl⟩)
    (Or.inr (Or.inr (Or.inr (Or.inr (Or.inr (Or.inr (Or.inr rfl))))))) (by decide) x

theorem foldlM_tail (L : List Str) (h : ∀ s ∈ L, TailSeg s) :
    ∀ r, ∃ r₂, List.foldlM hl7Step r L = .ok r₂ ∧ r₂.patient = r.patient := by
  induction L with
  | nil => intro r; exact ⟨r, rfl, rfl⟩
  | cons s L ih =>
    intro r
    obtain ⟨hTT, _⟩ := h s (List.mem_cons_self _ _)
    obtain ⟨n1, n2, n3⟩ := tailTag_ne hTT
    obtain ⟨r₂, e, hp, _⟩ := hl7Step_other r s n1 n2 n3
    obtain ⟨r₃, e₃, hp₃⟩ := ih (fun t ht => h t (List.mem_cons_of_mem _ ht)) r₂
    rw [foldlM_hl7_cons, e, except_bind_ok, e₃]
    exact ⟨r₃, rfl, hp₃.trans hp⟩

theorem visitChunk_decomp (now : PyDateTime) (v : VisitModel) :
    ∃ t₁ t₂, visitChunk now (some v) = [strL "PV1" ++ '|' :: t₁, strL "PV2" ++ '|' :: t₂] :=
  ⟨_, _, rfl⟩

theorem foldlM_visit (now : PyDateTime) (x : Option VisitModel) (r : DecodeResult) :
    ∃ r₂, List.foldlM hl7Step r (visitChunk now x) = .ok r₂ ∧ r₂.patient = r.patient := by
  match x with
  | none => exact ⟨r, rfl, rfl⟩
  | some v =>
    obtain ⟨t₁, t₂, e⟩ := visitChunk_decomp now v
    rw [e]
    have h1 : segName (strL "PV1" ++ '|' :: t₁) = strL "PV1" :=
      segName_of_eq _ _ _ rfl (by decide)
    obtain ⟨vd, e1⟩ := hl7Step_pv1 r _ h1
    have h2 : segName (strL "PV2" ++ '|' :: t₂) = strL "PV2" :=
      segName_of_eq _ _ _ rfl (by decide)
    obtain ⟨r₃, e2, hp2⟩ := hl7Step_pv2_some { r with visit := some vd } _ vd h2 rfl
    rw [foldlM_hl7_cons, e1, except_bind_ok, foldlM_hl7_cons, e2, except_bind_ok,
      foldlM_hl7_nil]
    exact ⟨r₃, rfl, hp2⟩

/-- pidSegOf is the PID segment `build_pid` produces for a matching first
identifier. -/
def pidSegOf (patient : PatientModel) (first : Identifier) : Str :=
  strL "PID|1||" ++ pid3Of first ++ strL "||" ++ pidName patient ++ strL "||" ++
    pyOr patient.dob [] ++ strL "|" ++ pyOr patient.sex []

theorem visitChunk_truthy (now : PyDateTime) (x : Option VisitModel) :
    ∀ s ∈ visitChunk now x, pyStripTruthy s = true := by
  intro s hs
  match x with
  | none => simp [visitChunk] at hs
  | some v =>
    obtain ⟨t₁, t₂, e⟩ := visitChunk_decomp now v
    rw [e] at hs
    rcases hs with _ | ⟨_, hs⟩
    · exact pyStripTruthy_append_left (strL "PV1") _ (by decide)
    · rcases hs with _ | ⟨_, hs⟩
      · exact pyStripTruthy_append_left (strL "PV2") _ (by decide)
      · cases hs

/-- claim C2, amended: for a patient whose first identifier carries the
fixed health-ID OID, whose raw id contains neither `|` nor `^`, and whose
encoded segments contain no carriage return (no field value smuggles a
segment separator in), encoding with `json_to_hl7_full` and decoding with
`hl7_full_to_json` yields a patient whose single captured identifier is
the raw XDS composite `id^^^OID^ISO`, whose portion before the first `^`
is the raw id string unchanged. -/
theorem claim_C2 (now : PyDateTime) (ctrl : Str) (payload : HL7FullInput)
    (first : Identifier) (rest : List Identifier)
    (hids : payload.patient.identifiers = first :: rest)
    (hauth : first.assigning_authority = some ASSIGNING_AUTHORITY_HEALTH_ID)
    (hpipe : '|' ∉ first.id) (hcaret : '^' ∉ first.id)
    (segs : List Str)
    (hsegs : hl7Segments now ctrl payload = .ok segs)
    (hcr : ∀ s ∈ segs, '\r' ∉ s) :
    ∃ res pd,
      json_to_hl7_full now ctrl payload = .ok (joinSep '\r' segs) ∧
      hl7_full_to_json (joinSep '\r' segs) = .ok res ∧
      res.patient = some pd ∧
      pd.identifiers.headD [] = pid3Of first ∧
      (splitOnChar '^' (pd.identifiers.headD [])).headD [] = first.id := by
  have hbp : build_pid payload.patient = .ok (pidSegOf payload.patient first) := by
    rw [build_pid, hids, pidSegOf]
    simp [hauth]
  have hsegList : hl7Segments now ctrl payload = .ok
      ([build_msh now ctrl payload.header, evnSeg now payload.header,
        pidSegOf payload.patient first] ++ pd1Chunk payload.pd1 ++
        visitChunk now payload.visit ++ mrgChunk payload.mrg ++
        listChunk al1Seg payload.al1 ++ listChunk dg1Seg payload.dg1 ++
        listChunk pr1Seg payload.pr1 ++ listChunk nk1Seg payload.nk1 ++
        listChunk gt1Seg payload.gt1 ++ listChunk in1Seg payload.in1) := by
    rw [hl7Segments, hbp]
  have hseq := Except.ok.inj (hsegList.symm.trans hsegs)
  subst hseq
  have hL : ([build_msh now ctrl payload.header, evnSeg now payload.header,
      pidSegOf payload.patient first] ++ pd1Chunk payload.pd1 ++
      visitChunk now payload.visit ++ mrgChunk payload.mrg ++
      listChunk al1Seg payload.al1 ++ listChunk dg1Seg payload.dg1 ++
      listChunk pr1Seg payload.pr1 ++ listChunk nk1Seg payload.nk1 ++
      listChunk gt1Seg payload.gt1 ++ listChunk in1Seg payload.in1) =
      build_msh now ctrl payload.header :: evnSeg now payload.header ::
      pidSegOf payload.patient first ::
      (pd1Chunk payload.pd1 ++ (visitChunk now payload.visit ++ (mrgChunk payload.mrg ++
       (listChunk al1Seg payload.al1 ++ (listChunk dg1Seg payload.dg1 ++
       (listChunk pr1Seg payload.pr1 ++ (listChunk nk1Seg payload.nk1 ++
       (listChunk gt1Seg payload.gt1 ++ listChunk in1Seg payload.in1)))))))) := by
    simp [List.append_assoc]
  obtain ⟨mt, hmshD⟩ : ∃ t, build_msh now ctrl payload.header = strL "MSH" ++ '|' :: t := by
    simp only [build_msh, List.append_assoc]
    exact ⟨_, rfl⟩
  have hmshN : segName (build_msh now ctrl payload.header) = strL "MSH" :=
    segName_of_eq _ _ _ hmshD (by decide)
  obtain ⟨et, hevnD⟩ : ∃ t, evnSeg now payload.header = strL "EVN" ++ '|' :: t := by
    simp only [evnSeg, List.append_assoc]
    exact ⟨_, rfl⟩
  have hevnN : segName (evnSeg now payload.header) = strL "EVN" :=
    segName_of_eq _ _ _ hevnD (by decide)
  obtain ⟨T, hpidT⟩ : ∃ T, pidSegOf payload.patient first =
      strL "PID" ++ '|' :: (strL "1" ++ '|' :: (([] : Str) ++ '|' ::
        (pid3Of first ++ '|' :: T))) := by
    simp only [pidSegOf, List.append_assoc]
    exact ⟨_, rfl⟩
  have hpipe3 : '|' ∉ pid3Of first := by
    rw [pid3Of, hauth]
    simp only [pyStr, List.mem_append, not_or]
    exact ⟨⟨⟨hpipe, by decide⟩, by decide⟩, by decide⟩
  have hfields : splitOnChar '|' (pidSegOf payload.patient first) =
      strL "PID" :: strL "1" :: ([] : Str) :: pid3Of first :: splitOnChar '|' T := by
    rw [hpidT, splitOnChar_append_cons _ (by decide), splitOnChar_append_cons _ (by decide),
      splitOnChar_append_cons _ (by decide), splitOnChar_append_cons _ hpipe3]
  have hsegPid : segName (pidSegOf payload.patient first) = strL "PID" := by
    rw [segName, hfields]
    rfl
  have hg3 : (splitOnChar '|' (pidSegOf payload.patient first)).getD 3 [] = pid3Of first := by
    rw [hfields]
    rfl
  obtain ⟨r1, em, hpm, hvm⟩ := hl7Step_other initResult (build_msh now ctrl payload.header)
    (by rw [hmshN]; decide) (by rw [hmshN]; decide) (by rw [hmshN]; decide)
  obtain ⟨r2, ee, hpe, hve⟩ := hl7Step_other r1 (evnSeg now payload.header)
    (by rw [hevnN]; decide) (by rw [hevnN]; decide) (by rw [hevnN]; decide)
  have epid := hl7Step_pid r2 (pidSegOf payload.patient first) hsegPid
  obtain ⟨r4, e4, hp4⟩ := foldlM_tail (pd1Chunk payload.pd1) (tailSeg_pd1 payload.pd1)
    { r2 with patient := some (⟨[(splitOnChar '|' (pidSegOf payload.patient first)).getD 3 []],
      (splitOnChar '|' (pidSegOf payload.patient first)).getD 5 [],
      (splitOnChar '|' (pidSegOf payload.patient first)).getD 7 [],
      (splitOnChar '|' (pidSegOf payload.patient first)).getD 8 []⟩ : PidD) }
  obtain ⟨r5, e5, hp5⟩ := foldlM_visit now payload.visit r4
  obtain ⟨r6, e6, hp6⟩ := foldlM_tail (mrgChunk payload.mrg) (tailSeg_mrg payload.mrg) r5
  obtain ⟨r7, e7, hp7⟩ :=
    foldlM_tail (listChunk al1Seg payload.al1) (tailSeg_al1 payload.al1) r6
  obtain ⟨r8, e8, hp8⟩ :=
    foldlM_tail (listChunk dg1Seg payload.dg1) (tailSeg_dg1 payload.dg1) r7
  obtain ⟨r9, e9, hp9⟩ :=
    foldlM_tail (listChunk pr1Seg payload.pr1) (tailSeg_pr1 payload.pr1) r8
  obtain ⟨r10, e10, hp10⟩ :=
    foldlM_tail (listChunk nk1Seg payload.nk1) (tailSeg_nk1 payload.nk1) r9
  obtain ⟨r11, e11, hp11⟩ :=
    foldlM_tail (listChunk gt1Seg payload.gt1) (tailSeg_gt1 payload.gt1) r10
  obtain ⟨r12, e12, hp12⟩ :=
    foldlM_tail (listChunk in1Seg payload.in1) (tailSeg_in1 payload.in1) r11
  have hTruthy : ∀ s ∈ ([build_msh now ctrl payload.header, evnSeg now payload.header,
      pidSegOf payload.patient first] ++ pd1Chunk payload.pd1 ++
      visitChunk now payload.visit ++ mrgChunk payload.mrg ++
      listChunk al1Seg payload.al1 ++ listChunk dg1Seg payload.dg1 ++
      listChunk pr1Seg payload.pr1 ++ listChunk nk1Seg payload.nk1 ++
      listChunk gt1Seg payload.gt1 ++ listChunk in1Seg payload.in1),
      pyStripTruthy s = true := by
    rw [hL]
    intro s hs
    rcases List.mem_cons.mp hs with rfl | hs
    · rw [hmshD]; exact pyStripTruthy_append_left _ _ (by decide)
    rcases List.mem_cons.mp hs with rfl | hs
    · rw [hevnD]; exact pyStripTruthy_append_left _ _ (by decide)
    rcases List.mem_cons.mp hs with rfl | hs
    · rw [hpidT]; exact pyStripTruthy_append_left _ _ (by decide)
    rcases List.mem_append.mp hs with hs | hs
    · exact (tailSeg_pd1 payload.pd1 s hs).2
    rcases List.mem_append.mp hs with hs | hs
    · exact visitChunk_truthy now payload.visit s hs
    rcases List.mem_append.mp hs with hs | hs
    · exact (tailSeg_mrg payload.mrg s hs).2
    rcases List.mem_append.mp hs with hs | hs
    · exact (tailSeg_al1 payload.al1 s hs).2
    rcases List.mem_append.mp hs with hs | hs
    · exact (tailSeg_dg1 payload.dg1 s hs).2
    rcases List.mem_append.mp hs with hs | hs
    · exact (tailSeg_pr1 payload.pr1 s hs).2
    rcases List.mem_append.mp hs with hs | hs
    · exact (tailSeg_nk1 payload.nk1 s hs).2
    rcases List.mem_append.mp hs with hs | hs
    · exact (tailSeg_gt1 payload.gt1 s hs).2
    exact (tailSeg_in1 payload.in1 s hs).2
  have hsplitCR := split_joinSep '\r'
    ([build_msh now ctrl payload.header, evnSeg now payload.header,
      pidSegOf payload.patient first] ++ pd1Chunk payload.pd1 ++
      visitChunk now payload.visit ++ mrgChunk payload.mrg ++
      listChunk al1Seg payload.al1 ++ listChunk dg1Seg payload.dg1 ++
      listChunk pr1Seg payload.pr1 ++ listChunk nk1Seg payload.nk1 ++
      listChunk gt1Seg payload.gt1 ++ listChunk in1Seg payload.in1)
    (by rw [hL]; exact List.cons_ne_nil _ _) hcr
  have hjson : json_to_hl7_full now ctrl payload = .ok (joinSep '\r'
      ([build_msh now ctrl payload.header, evnSeg now payload.header,
        pidSegOf payload.patient first] ++ pd1Chunk payload.pd1 ++
        visitChunk now payload.visit ++ mrgChunk payload.mrg ++
        listChunk al1Seg payload.al1 ++ listChunk dg1Seg payload.dg1 ++
        listChunk pr1Seg payload.pr1 ++ listChunk nk1Seg payload.nk1 ++
        listChunk gt1Seg payload.gt1 ++ listChunk in1Seg payload.in1)) := by
    rw [json_to_hl7_full, hsegList]
  have hdec : hl7_full_to_json (joinSep '\r'
      ([build_msh now ctrl payload.header, evnSeg now payload.header,
        pidSegOf payload.patient first] ++ pd1Chunk payload.pd1 ++
        visitChunk now payload.visit ++ mrgChunk payload.mrg ++
        listChunk al1Seg payload.al1 ++ listChunk dg1Seg payload.dg1 ++
        listChunk pr1Seg payload.pr1 ++ listChunk nk1Seg payload.nk1 ++
        listChunk gt1Seg payload.gt1 ++ listChunk in1Seg payload.in1)) = .ok r12 := by
    rw [hl7_full_to_json, hsplitCR, List.filter_eq_self.mpr hTruthy, hL,
      foldlM_hl7_cons, em, except_bind_ok, foldlM_hl7_cons, ee, except_bind_ok,
      foldlM_hl7_cons, epid, except_bind_ok,
      foldlM_hl7_append, e4, except_bind_ok,
      foldlM_hl7_append, e5, except_bind_ok,
      foldlM_hl7_append, e6, except_bind_ok,
      foldlM_hl7_append, e7, except_bind_ok,
      foldlM_hl7_append, e8, except_bind_ok,
      foldlM_hl7_append, e9, except_bind_ok,
      foldlM_hl7_append, e10, except_bind_ok,
      foldlM_hl7_append, e11, except_bind_ok]
    exact e12
  have hpat : r12.patient =
      some (⟨[(splitOnChar '|' (pidSegOf payload.patient first)).getD 3 []],
        (splitOnChar '|' (pidSegOf payload.patient first)).getD 5 [],
        (splitOnChar '|' (pidSegOf payload.patient first)).getD 7 [],
        (splitOnChar '|' (pidSegOf payload.patient first)).getD 8 []⟩ : PidD) := by
    rw [hp12, hp11, hp10, hp9, hp8, hp7, hp6, hp5, hp4]
  obtain ⟨Q, hQ⟩ : ∃ Q, pid3Of first = first.id ++ '^' :: Q := by
    rw [pid3Of, hauth]
    simp only [pyStr, List.append_assoc]
    exact ⟨_, rfl⟩
  refine ⟨r12, _, hjson, hdec, hpat, ?_, ?_⟩
  · simp only [List.headD_cons]
    exact hg3
  · simp only [List.headD_cons, hg3, hQ, splitOnChar_append_cons _ hcaret]

/-- roundtripFirstId composes the codec pair and extracts what the claim
says is recovered: the portion of the decoded first patient identifier
before the first `^` (the decoder keeps the whole raw `id^^^OID^ISO`
substring in `identifiers`). -/
def roundtripFirstId (now : PyDateTime) (ctrl : Str) (payload : HL7FullInput) : Option Str :=
  match json_to_hl7_full now ctrl payload with
  | .error _ => none
  | .ok msg =>
    match hl7_full_to_json msg with
    | .error _ => none
    | .ok res =>
      match res.patient with
      | none => none
      | some pd => some ((splitOnChar '^' (pd.identifiers.headD [])).headD [])

/-- c2Payload is a patient whose primary identifier carries the required
OID but whose raw id contains a `|` delimiter. -/
def c2Payload : HL7FullInput :=
  ⟨⟨strL "ADT^A01", none, none, none, none, none, none, none⟩,
   ⟨[⟨strL "A|B", some ASSIGNING_AUTHORITY_HEALTH_ID, none⟩],
    none, none, none, none, none⟩,
   none, none, none, none, none, none, none, none, none⟩

/-- claim C2 counterexample: the raw id `A|B` is not escaped in PID-3, so
the `|` shifts the decoder's fields and encode-then-decode recovers only
`A`, not the original id, although the primary identifier's assigning
authority equals the fixed health-ID OID as the claim requires. -/
theorem claim_C2_counterexample :
    c2Payload.patient.identifiers.map Identifier.id = [strL "A|B"] ∧
    (c2Payload.patient.identifiers.headD ⟨[], none, none⟩).assigning_authority =
      some ASSIGNING_AUTHORITY_HEALTH_ID ∧
    roundtripFirstId ⟨2020, 1, 1, 0, 0, 0⟩ (strL "C1") c2Payload = some (strL "A") ∧
    some (strL "A") ≠ some (strL "A|B") := by decide

/-- c2WPayload is a well-behaved patient for the amended round-trip claim. -/
def c2WPayload : HL7FullInput :=
  ⟨⟨strL "ADT^A01", none, none, none, none, none, none, none⟩,
   ⟨[⟨strL "NHIC123", some ASSIGNING_AUTHORITY_HEALTH_ID, none⟩],
    none, none, none, none, none⟩,
   none, none, none, none, none, none, none, none, none⟩

/-- claim C2 witness: the amended round-trip theorem applied at a concrete
payload, every hypothesis discharged by evaluation. -/
theorem claim_C2_witness :
    ∃ segs, hl7Segments ⟨2020, 1, 1, 0, 0, 0⟩ (strL "C1") c2WPayload = .ok segs ∧
      ∃ res pd,
        json_to_hl7_full ⟨2020, 1, 1, 0, 0, 0⟩ (strL "C1") c2WPayload =
          .ok (joinSep '\r' segs) ∧
        hl7_full_to_json (joinSep '\r' segs) = .ok res ∧
        res.patient = some pd ∧
        pd.identifiers.headD [] =
          pid3Of ⟨strL "NHIC123", some ASSIGNING_AUTHORITY_HEALTH_ID, none⟩ ∧
        (splitOnChar '^' (pd.identifiers.headD [])).headD [] = strL "NHIC123" := by
  refine ⟨_, rfl, ?_⟩
  exact claim_C2 ⟨2020, 1, 1, 0, 0, 0⟩ (strL "C1") c2WPayload
    ⟨strL "NHIC123", some ASSIGNING_AUTHORITY_HEALTH_ID, none⟩ [] rfl rfl (by decide)
    (by decide) _ rfl (by decide)

/-!  ebXML tree lemmas (claims C6, C7 and the transport selection of C1).  -/

theorem findAllLocal_elem (t : String) (tag : Str) (as : List (Str × Str)) (cs : List Xml)
    (tx : Str) :
    findAllLocal t (.elem tag as cs tx) =
      (if localName tag = strL t then [Xml.elem tag as cs tx] else []) ++
        findAllLocalL t cs := rfl

theorem findAllLocalL_nil (t : String) : findAllLocalL t [] = [] := rfl

theorem findAllLocalL_cons (t : String) (x : Xml) (xs : List Xml) :
    findAllLocalL t (x :: xs) = findAllLocal t x ++ findAllLocalL t xs := rfl

theorem findAllLocalL_append (t : String) (l₁ l₂ : List Xml) :
    findAllLocalL t (l₁ ++ l₂) = findAllLocalL t l₁ ++ findAllLocalL t l₂ := by
  induction l₁ with
  | nil => rfl
  | cons x xs ih =>
    rw [List.cons_append, findAllLocalL_cons, findAllLocalL_cons, ih, List.append_assoc]

theorem findAllLocalL_ite (t : String) (c : Prop) [Decidable c] (l₁ l₂ : List Xml) :
    findAllLocalL t (if c then l₁ else l₂) =
      if c then findAllLocalL t l₁ else findAllLocalL t l₂ := by
  by_cases h : c
  · rw [if_pos h, if_pos h]
  · rw [if_neg h, if_neg h]

theorem fa_rp_name (w : String) : findAllLocal "RegistryPackage" (locStr "Name" w) = [] := rfl

theorem fa_rp_desc (w : String) :
    findAllLocal "RegistryPackage" (locStr "Description" w) = [] := rfl

theorem fa_rp_ext (a b c d : Str) : findAllLocal "RegistryPackage" (extIdXml a b c d) = [] := rfl

theorem fa_rp_slot (nm v : Str) : findAllLocal "RegistryPackage" (slotXml nm [v]) = [] := rfl

theorem fa_rp_cls (a b c : Str) :
    findAllLocal "RegistryPackage" (classificationXml a b c) = [] := rfl

theorem fa_rp_header (u : Nat → Str) (obj : SOAPInput) :
    findAllLocal "RegistryPackage" (soapHeaderXml u obj) = [] := rfl

theorem fa_rp_assoc (u : Nat → Str) (obj : SOAPInput) :
    findAllLocal "RegistryPackage" (assocXml u obj) = [] := rfl

theorem faL_rp_docSlots (obj : SOAPInput) :
    findAllLocalL "RegistryPackage" (docSlotsChunk obj) = [] := by
  rw [docSlotsChunk]
  cases docBytesOf obj <;> rfl

theorem faL_rp_docEl (u : Nat → Str) (obj : SOAPInput) :
    findAllLocalL "RegistryPackage" (docElemChunk u obj) = [] := by
  rw [docElemChunk]
  cases docBytesOf obj <;> rfl

theorem fa_eo_name (w : String) : findAllLocal "ExtrinsicObject" (locStr "Name" w) = [] := rfl

theorem fa_eo_desc (w : String) :
    findAllLocal "ExtrinsicObject" (locStr "Description" w) = [] := rfl

theorem fa_eo_ext (a b c d : Str) : findAllLocal "ExtrinsicObject" (extIdXml a b c d) = [] := rfl

theorem fa_eo_slot (nm v : Str) : findAllLocal "ExtrinsicObject" (slotXml nm [v]) = [] := rfl

theorem fa_eo_cls (a b c : Str) :
    findAllLocal "ExtrinsicObject" (classificationXml a b c) = [] := rfl

theorem fa_eo_header (u : Nat → Str) (obj : SOAPInput) :
    findAllLocal "ExtrinsicObject" (soapHeaderXml u obj) = [] := rfl

theorem fa_eo_assoc (u : Nat → Str) (obj : SOAPInput) :
    findAllLocal "ExtrinsicObject" (assocXml u obj) = [] := rfl

theorem faL_eo_docSlots (obj : SOAPInput) :
    findAllLocalL "ExtrinsicObject" (docSlotsChunk obj) = [] := by
  rw [docSlotsChunk]
  cases docBytesOf obj <;> rfl

theorem faL_eo_docEl (u : Nat → Str) (obj : SOAPInput) :
    findAllLocalL "ExtrinsicObject" (docElemChunk u obj) = [] := by
  rw [docElemChunk]
  cases docBytesOf obj <;> rfl

theorem fa_as_name (w : String) : findAllLocal "Association" (locStr "Name" w) = [] := rfl

theorem fa_as_desc (w : String) :
    findAllLocal "Association" (locStr "Description" w) = [] := rfl

theorem fa_as_ext (a b c d : Str) : findAllLocal "Association" (extIdXml a b c d) = [] := rfl

theorem fa_as_slot (nm v : Str) : findAllLocal "Association" (slotXml nm [v]) = [] := rfl

theorem fa_as_cls (a b c : Str) :
    findAllLocal "Association" (classificationXml a b c) = [] := rfl

theorem fa_as_header (u : Nat → Str) (obj : SOAPInput) :
    findAllLocal "Association" (soapHeaderXml u obj) = [] := rfl

theorem fa_as_assoc (u : Nat → Str) (obj : SOAPInput) :
    findAllLocal "Association" (assocXml u obj) = [assocXml u obj] := rfl

theorem faL_as_docSlots (obj : SOAPInput) :
    findAllLocalL "Association" (docSlotsChunk obj) = [] := by
  rw [docSlotsChunk]
  cases docBytesOf obj <;> rfl

theorem faL_as_docEl (u : Nat → Str) (obj : SOAPInput) :
    findAllLocalL "Association" (docElemChunk u obj) = [] := by
  rw [docElemChunk]
  cases docBytesOf obj <;> rfl

theorem fa_doc_name (w : String) : findAllLocal "Document" (locStr "Name" w) = [] := rfl

theorem fa_doc_desc (w : String) :
    findAllLocal "Document" (locStr "Description" w) = [] := rfl

theorem fa_doc_ext (a b c d : Str) : findAllLocal "Document" (extIdXml a b c d) = [] := rfl

theorem fa_doc_slot (nm v : Str) : findAllLocal "Document" (slotXml nm [v]) = [] := rfl

theorem fa_doc_cls (a b c : Str) :
    findAllLocal "Document" (classificationXml a b c) = [] := rfl

theorem fa_doc_header (u : Nat → Str) (obj : SOAPInput) :
    findAllLocal "Document" (soapHeaderXml u obj) = [] := rfl

theorem fa_doc_assoc (u : Nat → Str) (obj : SOAPInput) :
    findAllLocal "Document" (assocXml u obj) = [] := rfl

theorem faL_doc_docSlots (obj : SOAPInput) :
    findAllLocalL "Document" (docSlotsChunk obj) = [] := by
  rw [docSlotsChunk]
  cases docBytesOf obj <;> rfl

theorem faL_doc_docEl (u : Nat → Str) (obj : SOAPInput) :
    findAllLocalL "Document" (docElemChunk u obj) = docElemChunk u obj := by
  rw [docElemChunk]
  cases docBytesOf obj <;> rfl

theorem fa_rp_regpkg (u : Nat → Str) (nowTs : Str) (obj : SOAPInput) :
    findAllLocal "RegistryPackage" (regpkgXml u nowTs obj) = [regpkgXml u nowTs obj] := by
  conv_lhs => rw [regpkgXml]
  simp only [findAllLocal_elem, findAllLocalL_append, findAllLocalL_cons, findAllLocalL_nil,
    findAllLocalL_ite, fa_rp_name, fa_rp_ext, fa_rp_slot,
    eq_true (show localName (qtag NS_RIM "RegistryPackage") = strL "RegistryPackage" by decide),
    if_true, ite_self, List.append_nil, List.nil_append]
  rfl

theorem fa_eo_regpkg (u : Nat → Str) (nowTs : Str) (obj : SOAPInput) :
    findAllLocal "ExtrinsicObject" (regpkgXml u nowTs obj) = [] := by
  conv_lhs => rw [regpkgXml]
  simp only [findAllLocal_elem, findAllLocalL_append, findAllLocalL_cons, findAllLocalL_nil,
    findAllLocalL_ite, fa_eo_name, fa_eo_ext, fa_eo_slot,
    eq_false
      (show ¬ localName (qtag NS_RIM "RegistryPackage") = strL "ExtrinsicObject" by decide),
    if_false, ite_self, List.append_nil, List.nil_append]

theorem fa_as_regpkg (u : Nat → Str) (nowTs : Str) (obj : SOAPInput) :
    findAllLocal "Association" (regpkgXml u nowTs obj) = [] := by
  conv_lhs => rw [regpkgXml]
  simp only [findAllLocal_elem, findAllLocalL_append, findAllLocalL_cons, findAllLocalL_nil,
    findAllLocalL_ite, fa_as_name, fa_as_ext, fa_as_slot,
    eq_false (show ¬ localName (qtag NS_RIM "RegistryPackage") = strL "Association" by decide),
    if_false, ite_self, List.append_nil, List.nil_append]

theorem fa_doc_regpkg (u : Nat → Str) (nowTs : Str) (obj : SOAPInput) :
    findAllLocal "Document" (regpkgXml u nowTs obj) = [] := by
  conv_lhs => rw [regpkgXml]
  simp only [findAllLocal_elem, findAllLocalL_append, findAllLocalL_cons, findAllLocalL_nil,
    findAllLocalL_ite, fa_doc_name, fa_doc_ext, fa_doc_slot,
    eq_false (show ¬ localName (qtag NS_RIM "RegistryPackage") = strL "Document" by decide),
    if_false, ite_self, List.append_nil, List.nil_append]

theorem fa_rp_ex (u : Nat → Str) (nowTs : Str) (obj : SOAPInput) :
    findAllLocal "RegistryPackage" (exXml u nowTs obj) = [] := by
  conv_lhs => rw [exXml]
  simp only [findAllLocal_elem, findAllLocalL_append, findAllLocalL_cons, findAllLocalL_nil,
    findAllLocalL_ite, fa_rp_name, fa_rp_desc, fa_rp_ext, fa_rp_slot, fa_rp_cls,
    faL_rp_docSlots,
    eq_false (show ¬ localName (qtag NS_RIM "ExtrinsicObject") = strL "RegistryPackage" by decide),
    if_false, ite_self, List.append_nil, List.nil_append]

theorem fa_eo_ex (u : Nat → Str) (nowTs : Str) (obj : SOAPInput) :
    findAllLocal "ExtrinsicObject" (exXml u nowTs obj) = [exXml u nowTs obj] := by
  conv_lhs => rw [exXml]
  simp only [findAllLocal_elem, findAllLocalL_append, findAllLocalL_cons, findAllLocalL_nil,
    findAllLocalL_ite, fa_eo_name, fa_eo_desc, fa_eo_ext, fa_eo_slot, fa_eo_cls,
    faL_eo_docSlots,
    eq_true (show localName (qtag NS_RIM "ExtrinsicObject") = strL "ExtrinsicObject" by decide),
    if_true, ite_self, List.append_nil, List.nil_append]
  rfl

theorem fa_as_ex (u : Nat → Str) (nowTs : Str) (obj : SOAPInput) :
    findAllLocal "Association" (exXml u nowTs obj) = [] := by
  conv_lhs => rw [exXml]
  simp only [findAllLocal_elem, findAllLocalL_append, findAllLocalL_cons, findAllLocalL_nil,
    findAllLocalL_ite, fa_as_name, fa_as_desc, fa_as_ext, fa_as_slot, fa_as_cls,
    faL_as_docSlots,
    eq_false (show ¬ localName (qtag NS_RIM "ExtrinsicObject") = strL "Association" by decide),
    if_false, ite_self, List.append_nil, List.nil_append]

theorem fa_doc_ex (u : Nat → Str) (nowTs : Str) (obj : SOAPInput) :
    findAllLocal "Document" (exXml u nowTs obj) = [] := by
  conv_lhs => rw [exXml]
  simp only [findAllLocal_elem, findAllLocalL_append, findAllLocalL_cons, findAllLocalL_nil,
    findAllLocalL_ite, fa_doc_name, fa_doc_desc, fa_doc_ext, fa_doc_slot, fa_doc_cls,
    faL_doc_docSlots,
    eq_false (show ¬ localName (qtag NS_RIM "ExtrinsicObject") = strL "Document" by decide),
    if_false, ite_self, List.append_nil, List.nil_append]

theorem fa_env_rp (u : Nat → Str) (nowTs : Str) (obj : SOAPInput) :
    findAllLocal "RegistryPackage" (iti41Envelope u nowTs obj) = [regpkgXml u nowTs obj] := by
  conv_lhs => rw [iti41Envelope]
  simp only [findAllLocal_elem, findAllLocalL_append, findAllLocalL_cons, findAllLocalL_nil,
    fa_rp_header, fa_rp_regpkg, fa_rp_ex, fa_rp_assoc, faL_rp_docEl,
    eq_false (show ¬ localName (qtag NS_S "Envelope") = strL "RegistryPackage" by decide),
    eq_false (show ¬ localName (qtag NS_S "Body") = strL "RegistryPackage" by decide),
    eq_false (show ¬ localName (qtag NS_XDS "ProvideAndRegisterDocumentSetRequest") =
      strL "RegistryPackage" by decide),
    eq_false (show ¬ localName (qtag NS_LCM "SubmitObjectsRequest") =
      strL "RegistryPackage" by decide),
    eq_false (show ¬ localName (qtag NS_RIM "RegistryObjectList") =
      strL "RegistryPackage" by decide),
    if_false, List.append_nil, List.nil_append]

theorem fa_env_eo (u : Nat → Str) (nowTs : Str) (obj : SOAPInput) :
    findAllLocal "ExtrinsicObject" (iti41Envelope u nowTs obj) = [exXml u nowTs obj] := by
  conv_lhs => rw [iti41Envelope]
  simp only [findAllLocal_elem, findAllLocalL_append, findAllLocalL_cons, findAllLocalL_nil,
    fa_eo_header, fa_eo_regpkg, fa_eo_ex, fa_eo_assoc, faL_eo_docEl,
    eq_false (show ¬ localName (qtag NS_S "Envelope") = strL "ExtrinsicObject" by decide),
    eq_false (show ¬ localName (qtag NS_S "Body") = strL "ExtrinsicObject" by decide),
    eq_false (show ¬ localName (qtag NS_XDS "ProvideAndRegisterDocumentSetRequest") =
      strL "ExtrinsicObject" by decide),
    eq_false (show ¬ localName (qtag NS_LCM "SubmitObjectsRequest") =
      strL "ExtrinsicObject" by decide),
    eq_false (show ¬ localName (qtag NS_RIM "RegistryObjectList") =
      strL "ExtrinsicObject" by decide),
    if_false, List.append_nil, List.nil_append]

theorem fa_env_as (u : Nat → Str) (nowTs : Str) (obj : SOAPInput) :
    findAllLocal "Association" (iti41Envelope u nowTs obj) = [assocXml u obj] := by
  conv_lhs => rw [iti41Envelope]
  simp only [findAllLocal_elem, findAllLocalL_append, findAllLocalL_cons, findAllLocalL_nil,
    fa_as_header, fa_as_regpkg, fa_as_ex, fa_as_assoc, faL_as_docEl,
    eq_false (show ¬ localName (qtag NS_S "Envelope") = strL "Association" by decide),
    eq_false (show ¬ localName (qtag NS_S "Body") = strL "Association" by decide),
    eq_false (show ¬ localName (qtag NS_XDS "ProvideAndRegisterDocumentSetRequest") =
      strL "Association" by decide),
    eq_false (show ¬ localName (qtag NS_LCM "SubmitObjectsRequest") =
      strL "Association" by decide),
    eq_false (show ¬ localName (qtag NS_RIM "RegistryObjectList") =
      strL "Association" by decide),
    if_false, List.append_nil, List.nil_append]

theorem fa_env_doc (u : Nat → Str) (nowTs : Str) (obj : SOAPInput) :
    findAllLocal "Document" (iti41Envelope u nowTs obj) = docElemChunk u obj := by
  conv_lhs => rw [iti41Envelope]
  simp only [findAllLocal_elem, findAllLocalL_append, findAllLocalL_cons, findAllLocalL_nil,
    fa_doc_header, fa_doc_regpkg, fa_doc_ex, fa_doc_assoc, faL_doc_docEl,
    eq_false (show ¬ localName (qtag NS_S "Envelope") = strL "Document" by decide),
    eq_false (show ¬ localName (qtag NS_S "Body") = strL "Document" by decide),
    eq_false (show ¬ localName (qtag NS_XDS "ProvideAndRegisterDocumentSetRequest") =
      strL "Document" by decide),
    eq_false (show ¬ localName (qtag NS_LCM "SubmitObjectsRequest") =
      strL "Document" by decide),
    eq_false (show ¬ localName (qtag NS_RIM "RegistryObjectList") =
      strL "Document" by decide),
    if_false, List.append_nil, List.nil_append]

theorem fa_env_all (u : Nat → Str) (nowTs : Str) (obj : SOAPInput) :
    findAllLocal "RegistryPackage" (iti41Envelope u nowTs obj) = [regpkgXml u nowTs obj] ∧
    findAllLocal "ExtrinsicObject" (iti41Envelope u nowTs obj) = [exXml u nowTs obj] ∧
    findAllLocal "Association" (iti41Envelope u nowTs obj) = [assocXml u obj] ∧
    findAllLocal "Document" (iti41Envelope u nowTs obj) = docElemChunk u obj :=
  ⟨fa_env_rp u nowTs obj, fa_env_eo u nowTs obj, fa_env_as u nowTs obj, fa_env_doc u nowTs obj⟩

theorem build_iti41_ok (u : Nat → Str) (nowTs : Str) (obj : SOAPInput)
    (hsrc : sourceIdViolation obj = false) :
    build_iti41_ebxml u nowTs obj = .ok (iti41Envelope u nowTs obj) := by
  rw [build_iti41_ebxml, hsrc]
  rfl

/-- claim C6: for every input passing the source-id guard, the built
envelope holds exactly one RegistryPackage, one ExtrinsicObject and one
Association, and the Association carries the HasMember type, the Approved
status, the RegistryPackage's id as sourceObject and the
ExtrinsicObject's id as targetObject. -/
theorem claim_C6 (u : Nat → Str) (nowTs : Str) (obj : SOAPInput)
    (hsrc : sourceIdViolation obj = false) :
    ∃ tr, build_iti41_ebxml u nowTs obj = .ok tr ∧
      findAllLocal "RegistryPackage" tr = [regpkgXml u nowTs obj] ∧
      findAllLocal "ExtrinsicObject" tr = [exXml u nowTs obj] ∧
      findAllLocal "Association" tr = [assocXml u obj] ∧
      getAttr (assocXml u obj) "associationType" =
        some (strL "urn:oasis:names:tc:ebxml-regrep:AssociationType:HasMember") ∧
      getAttr (assocXml u obj) "status" =
        some (strL "urn:oasis:names:tc:ebxml-regrep:StatusType:Approved") ∧
      getAttr (assocXml u obj) "sourceObject" = getAttr (regpkgXml u nowTs obj) "id" ∧
      getAttr (assocXml u obj) "sourceObject" ≠ none ∧
      getAttr (assocXml u obj) "targetObject" = getAttr (exXml u nowTs obj) "id" ∧
      getAttr (assocXml u obj) "targetObject" ≠ none := by
  obtain ⟨h1, h2, h3, _⟩ := fa_env_all u nowTs obj
  exact ⟨_, build_iti41_ok u nowTs obj hsrc, h1, h2, h3, rfl, rfl, rfl,
    fun h => Option.noConfusion h, rfl, fun h => Option.noConfusion h⟩

/-- claim C6 witness: the concrete example input of the service builds a
tree with the one-one-one shape. -/
theorem claim_C6_witness :
    ∃ tr, build_iti41_ebxml (fun n => natDec n) (strL "20251021123000")
        ⟨[(strL "action", strL "ACT")], none,
          strL "NHIC123456^^^&2.16.840.1.113883.3.3731.1.1.100.1&ISO",
          none, none, none, some (strL "urn:uuid:doc-1"), none, none,
          some (strL "text/xml"), some (strL "20251021123000"), none, none⟩ = .ok tr ∧
      findAllLocal "RegistryPackage" tr =
        [regpkgXml (fun n => natDec n) (strL "20251021123000")
          ⟨[(strL "action", strL "ACT")], none,
            strL "NHIC123456^^^&2.16.840.1.113883.3.3731.1.1.100.1&ISO",
            none, none, none, some (strL "urn:uuid:doc-1"), none, none,
            some (strL "text/xml"), some (strL "20251021123000"), none, none⟩] ∧
      findAllLocal "ExtrinsicObject" tr =
        [exXml (fun n => natDec n) (strL "20251021123000")
          ⟨[(strL "action", strL "ACT")], none,
            strL "NHIC123456^^^&2.16.840.1.113883.3.3731.1.1.100.1&ISO",
            none, none, none, some (strL "urn:uuid:doc-1"), none, none,
            some (strL "text/xml"), some (strL "20251021123000"), none, none⟩] ∧
      findAllLocal "Association" tr =
        [assocXml (fun n => natDec n)
          ⟨[(strL "action", strL "ACT")], none,
            strL "NHIC123456^^^&2.16.840.1.113883.3.3731.1.1.100.1&ISO",
            none, none, none, some (strL "urn:uuid:doc-1"), none, none,
            some (strL "text/xml"), some (strL "20251021123000"), none, none⟩] ∧
      getAttr (assocXml (fun n => natDec n)
          ⟨[(strL "action", strL "ACT")], none,
            strL "NHIC123456^^^&2.16.840.1.113883.3.3731.1.1.100.1&ISO",
            none, none, none, some (strL "urn:uuid:doc-1"), none, none,
            some (strL "text/xml"), some (strL "20251021123000"), none, none⟩)
        "associationType" =
        some (strL "urn:oasis:names:tc:ebxml-regrep:AssociationType:HasMember") ∧
      getAttr (assocXml (fun n => natDec n)
          ⟨[(strL "action", strL "ACT")], none,
            strL "NHIC123456^^^&2.16.840.1.113883.3.3731.1.1.100.1&ISO",
            none, none, none, some (strL "urn:uuid:doc-1"), none, none,
            some (strL "text/xml"), some (strL "20251021123000"), none, none⟩)
        "status" =
        some (strL "urn:oasis:names:tc:ebxml-regrep:StatusType:Approved") ∧
      getAttr (assocXml (fun n => natDec n)
          ⟨[(strL "action", strL "ACT")], none,
            strL "NHIC123456^^^&2.16.840.1.113883.3.3731.1.1.100.1&ISO",
            none, none, none, some (strL "urn:uuid:doc-1"), none, none,
            some (strL "text/xml"), some (strL "20251021123000"), none, none⟩)
        "sourceObject" =
        getAttr (regpkgXml (fun n => natDec n) (strL "20251021123000")
          ⟨[(strL "action", strL "ACT")], none,
            strL "NHIC123456^^^&2.16.840.1.113883.3.3731.1.1.100.1&ISO",
            none, none, none, some (strL "urn:uuid:doc-1"), none, none,
            some (strL "text/xml"), some (strL "20251021123000"), none, none⟩) "id" := by
  obtain ⟨tr, h1, h2, h3, h4, h5, h6, h7, _, _, _⟩ :=
    claim_C6 (fun n => natDec n) (strL "20251021123000")
      ⟨[(strL "action", strL "ACT")], none,
        strL "NHIC123456^^^&2.16.840.1.113883.3.3731.1.1.100.1&ISO",
        none, none, none, some (strL "urn:uuid:doc-1"), none, none,
        some (strL "text/xml"), some (strL "20251021123000"), none, none⟩ (by decide)
  exact ⟨tr, h1, h2, h3, h4, h5, h6, h7⟩

theorem slotValue_hash_size (u : Nat → Str) (nowTs : Str) (obj : SOAPInput) (b : List Nat)
    (hd : docBytesOf obj = some b) :
    slotValue (exXml u nowTs obj) "hash" = some (sha1Hex b) ∧
    slotValue (exXml u nowTs obj) "size" = some (natDec b.length) := by
  simp only [exXml, docSlotsChunk]
  rw [hd]
  cases hb1 : pyTruthyB obj.class_code <;> cases hb2 : pyTruthyB obj.type_code <;>
    cases hb3 : pyTruthyB obj.source_id <;> exact ⟨rfl, rfl⟩

/-- claim C7: when a document payload is supplied (non-empty, per the
code's truthiness test), the build never aborts on a base64 decode
failure — the bytes fall back to the UTF-8 encoding of the raw string —
and the ExtrinsicObject carries a `hash` slot equal to the SHA-1 hex
digest of those bytes and a `size` slot equal to their decimal count. -/
theorem claim_C7 (u : Nat → Str) (nowTs : Str) (obj : SOAPInput) (s : Str)
    (hdoc : obj.document_base64 = some s) (hne : s ≠ [])
    (hsrc : sourceIdViolation obj = false) :
    ∃ tr, build_iti41_ebxml u nowTs obj = .ok tr ∧
      findAllLocal "ExtrinsicObject" tr = [exXml u nowTs obj] ∧
      slotValue (exXml u nowTs obj) "hash" = some (sha1Hex (decodeOrRaw s)) ∧
      slotValue (exXml u nowTs obj) "size" = some (natDec (decodeOrRaw s).length) := by
  have hd : docBytesOf obj = some (decodeOrRaw s) := by
    rw [docBytesOf, hdoc]
    simp [hne]
  obtain ⟨h1, h2⟩ := slotValue_hash_size u nowTs obj _ hd
  exact ⟨_, build_iti41_ok u nowTs obj hsrc, (fa_env_all u nowTs obj).2.1, h1, h2⟩

/-- claim C7 witness: on a concrete input carrying base64 document
content, the build succeeds and the hash and size slots hold the digest
and length of the decoded bytes. -/
theorem claim_C7_witness :
    ∃ tr, build_iti41_ebxml (fun n => natDec n) (strL "20251021123000")
        ⟨[(strL "action", strL "ACT")], none, strL "PID1", none, none, none, none, none,
          some (strL "ZG9jdW1lbnRjb250ZW50"), none, some (strL "20251021123000"),
          none, none⟩ = .ok tr ∧
      slotValue (exXml (fun n => natDec n) (strL "20251021123000")
        ⟨[(strL "action", strL "ACT")], none, strL "PID1", none, none, none, none, none,
          some (strL "ZG9jdW1lbnRjb250ZW50"), none, some (strL "20251021123000"),
          none, none⟩) "hash" =
        some (sha1Hex (decodeOrRaw (strL "ZG9jdW1lbnRjb250ZW50"))) ∧
      slotValue (exXml (fun n => natDec n) (strL "20251021123000")
        ⟨[(strL "action", strL "ACT")], none, strL "PID1", none, none, none, none, none,
          some (strL "ZG9jdW1lbnRjb250ZW50"), none, some (strL "20251021123000"),
          none, none⟩) "size" =
        some (natDec (decodeOrRaw (strL "ZG9jdW1lbnRjb250ZW50")).length) := by
  obtain ⟨tr, h1, _, h3, h4⟩ :=
    claim_C7 (fun n => natDec n) (strL "20251021123000")
      ⟨[(strL "action", strL "ACT")], none, strL "PID1", none, none, none, none, none,
        some (strL "ZG9jdW1lbnRjb250ZW50"), none, some (strL "20251021123000"),
        none, none⟩ (strL "ZG9jdW1lbnRjb250ZW50") rfl (by decide) (by decide)
  exact ⟨tr, h1, h3, h4⟩

theorem mtomInline_iff (b : List Nat) : mtomInlineCond b ↔ b.length < 262144 := by
  unfold mtomInlineCond
  rw [div_lt_iff₀ (by norm_num : (0 : ℚ) < 1024)]
  norm_cast

theorem mtomSubAux_id (docId mime : Str) (fuel : Nat) (s : Str)
    (h : containsSub (docOpenLit docId) s = false) :
    mtomSubAux docId mime fuel s = s := by
  induction fuel generalizing s with
  | zero => rfl
  | succ n ih =>
    cases s with
    | nil => rfl
    | cons c rest =>
      rw [containsSub, Bool.or_eq_false_iff] at h
      have htm : tryMatchDoc docId (c :: rest) = none := by
        rw [tryMatchDoc]
        simp [h.1]
      rw [mtomSubAux, htm, ih rest h.2]

theorem mtom_envelope_id (xml docId mime : Str)
    (h : containsSub (docOpenLit docId) xml = false) :
    build_iti41_mtom_envelope xml docId mime = xml :=
  mtomSubAux_id docId mime xml.length xml h

/-- claim C1: refuted as stated — the code has a defect.  The size
threshold itself is faithful (`len/1024.0 < 256` holds exactly when the
byte count is below 262144), but in the over-threshold branch the rewrite
id is `payload.unique_id or "urn:uuid:doc-1"`, while the Document element
of the built envelope carries the id `urn:uuid:<uuid4()>` when unique_id
is absent.  The two ids differ, and on any serialized envelope that does
not contain the literal pattern head the re.sub rewrite is the identity:
the multipart root part keeps the document inline and gains no
xop:Include reference. -/
theorem claim_C1_bug (u : Nat → Str) (obj : SOAPInput) (xml : Str) (b : List Nat)
    (huid : obj.unique_id = none) (hu : u 3 ≠ strL "doc-1")
    (hx : containsSub (docOpenLit (api_doc_id obj)) xml = false) :
    (mtomInlineCond b ↔ b.length < 262144) ∧
    api_doc_id obj = strL "urn:uuid:doc-1" ∧
    docIdOf u obj = strL "urn:uuid:" ++ u 3 ∧
    docIdOf u obj ≠ api_doc_id obj ∧
    build_iti41_mtom_envelope xml (api_doc_id obj)
      (pyOr obj.mime_type (strL "text/xml")) = xml := by
  have h2 : api_doc_id obj = strL "urn:uuid:doc-1" := by
    rw [api_doc_id, huid]
    rfl
  have h3 : docIdOf u obj = strL "urn:uuid:" ++ u 3 := by
    rw [docIdOf, huid]
    rfl
  refine ⟨mtomInline_iff b, h2, h3, ?_, mtom_envelope_id xml _ _ hx⟩
  intro he
  rw [h3, h2] at he
  have he' : strL "urn:uuid:" ++ u 3 = strL "urn:uuid:" ++ strL "doc-1" := he
  exact hu (List.append_cancel_left he')

/-- claim C1 witness: a concrete payload without unique_id, where the
uuid supply returns a fixed uuid, together with a serialized envelope
fragment the rewrite leaves untouched. -/
theorem claim_C1_bug_witness :
    (mtomInlineCond [65] ↔ (1 : Nat) < 262144) ∧
    api_doc_id ⟨[(strL "action", strL "ACT")], none, strL "PID1", none, none, none, none,
      none, none, none, none, none, none⟩ = strL "urn:uuid:doc-1" ∧
    docIdOf (fun _ => strL "123e4567-e89b-12d3-a456-426614174000")
      ⟨[(strL "action", strL "ACT")], none, strL "PID1", none, none, none, none,
        none, none, none, none, none, none⟩ =
      strL "urn:uuid:" ++ strL "123e4567-e89b-12d3-a456-426614174000" ∧
    docIdOf (fun _ => strL "123e4567-e89b-12d3-a456-426614174000")
      ⟨[(strL "action", strL "ACT")], none, strL "PID1", none, none, none, none,
        none, none, none, none, none, none⟩ ≠
      api_doc_id ⟨[(strL "action", strL "ACT")], none, strL "PID1", none, none, none, none,
        none, none, none, none, none, none⟩ ∧
    build_iti41_mtom_envelope
      (strL "<Document id=\"urn:uuid:123e4567-e89b-12d3-a456-426614174000\">QQ==</Document>")
      (api_doc_id ⟨[(strL "action", strL "ACT")], none, strL "PID1", none, none, none, none,
        none, none, none, none, none, none⟩)
      (pyOr (SOAPInput.mime_type ⟨[(strL "action", strL "ACT")], none, strL "PID1", none,
        none, none, none, none, none, none, none, none, none⟩) (strL "text/xml")) =
      strL "<Document id=\"urn:uuid:123e4567-e89b-12d3-a456-426614174000\">QQ==</Document>" :=
  claim_C1_bug (fun _ => strL "123e4567-e89b-12d3-a456-426614174000")
    ⟨[(strL "action", strL "ACT")], none, strL "PID1", none, none, none, none,
      none, none, none, none, none, none⟩
    (strL "<Document id=\"urn:uuid:123e4567-e89b-12d3-a456-426614174000\">QQ==</Document>")
    [65] rfl (by decide) (by decide)

end NPHIES
